import Mathlib

/-!
# PercEncFilter (perceptual-encoding prefilter): lifecycle and per-frame orchestration

A shallow embedding of `_studio/mfx_lib/vpp/src/mfx_perc_enc_vpp.cpp`.

Modelling conventions
* The object's members are the fields of `PercEncFilter`; every member function takes the
  object and returns the status together with the updated object. `Init` and `Reset`
  return an `Option` status: `none` means that an exception left the function, so that
  no status was returned.
* Pointers that the code tests for null are `Option`s.
* Pixel planes reached through raw pointers (`Data.Y`, `Data.UV`) are memories
  `Nat → Nat` (offset to byte); the vector `previousOutput` is a `List Nat`.
* What the external collaborators answer (analysis engine, frame allocator, surface locks)
  is given per call in `InitEnv` and `FrameEnv`; the calls issued to them during a frame
  are recorded in the `trace` of the result.
* The size `width * height` handed to `resize` at line 74 is an `int` product: when it
  does not fit `int` (`2^31` or more) `resize` throws and `Init` is left by the exception.
  The offsets `Pitch * y + x` and `width * y + x` of the copy loops are exact
  natural-number arithmetic. The 32-bit `mfxU32` quantities (`numOfBlocks`,
  `m_frameCounter`) wrap modulo `2^32`.
* The checking macros come from a header outside the source unit and have their usual
  meaning: `MFX_CHECK(cond, err)` returns `err` when `cond` is false,
  `MFX_CHECK_NULL_PTR1(p)` returns `MFX_ERR_NULL_PTR` when `p` is null, and
  `MFX_CHECK_STS(sts)` and `MFX_SAFE_CALL(call)` return the status when it is not
  `MFX_ERR_NONE`.
* The input and the output surface of a frame call are distinct buffers.
* Running out of memory (`std::bad_alloc`) is not modelled.
-/

namespace PercEncPrefilter

/-! ## Status codes -/

/-- Status type of the library: zero is success, negative values are errors,
positive values are warnings. -/
abbrev mfxStatus := Int

/-- Success. -/
def MFX_ERR_NONE : mfxStatus := 0
/-- Null pointer argument (NullArgument). -/
def MFX_ERR_NULL_PTR : mfxStatus := -2
/-- Unsupported feature (UnsupportedHardware). -/
def MFX_ERR_UNSUPPORTED : mfxStatus := -3
/-- Invalid video parameters (InvalidParameter). -/
def MFX_ERR_INVALID_VIDEO_PARAM : mfxStatus := -15

/-! ## Frame descriptors -/

/-- A pixel plane addressed through a raw pointer: byte at each offset. -/
abbrev Plane := Nat → Nat

/-- The fields of `mfxFrameInfo` that the filter reads. -/
structure mfxFrameInfo where
  BitDepthLuma : Nat
  BitDepthChroma : Nat
  Shift : Nat
  FourCC : Nat
  Width : Nat
  Height : Nat
  CropX : Nat
  CropY : Nat
  CropW : Nat
  CropH : Nat
  ChromaFormat : Nat

/-- The fields of `mfxFrameData` that the filter reads or writes. -/
structure mfxFrameData where
  Pitch : Nat
  Y : Plane
  UV : Plane

/-- A frame surface: descriptor and data. -/
structure mfxFrameSurface1 where
  Info : mfxFrameInfo
  Data : mfxFrameData

/-- The `vpp` member of `mfxVideoParam`. -/
structure mfxInfoVPP where
  In : mfxFrameInfo
  Out : mfxFrameInfo

/-- The part of `mfxVideoParam` that `Reset` reads. -/
structure mfxVideoParam where
  vpp : mfxInfoVPP

/-! ## Collaborators -/

/-- The arguments of one `Filter::processFrame` call, in the order of the call
at line 221. -/
structure KernelArgs where
  src : Plane
  srcStride : Nat
  modulation : List Nat
  modulationStride : Nat
  previous : List Nat
  previousStride : Nat
  dst : Plane
  dstStride : Nat
  width : Nat
  height : Nat

/-- Modelled from the spec: the class `Filter` (the pixel-level kernel) is not part of the
source unit; it is the opaque capability
`process(inputPlane, modulationMap, previousOutputPlane) -> outputPlane`.
A deterministic kernel is a function of its own internal state and of the call's
arguments, giving its next internal state and the new contents of the output luma plane. -/
structure Filter where
  state : List Nat
  kernel : List Nat → KernelArgs → List Nat × Plane

/-- One call `filter->processFrame(...)`: the kernel object after the call and the
output luma plane it produced. -/
def Filter.processFrame (f : Filter) (a : KernelArgs) : Filter × Plane :=
  (Filter.mk (f.kernel f.state a).1 f.kernel, (f.kernel f.state a).2)

/-- Handle of the analysis engine (`mfxEncTools*`). -/
structure mfxEncTools where
  Context : Nat

/-- What is fixed for the life of the process: the CPU feature test of line 52, the build
switch `MFX_ENABLE_ENCTOOLS`, and the constructor of the kernel
(`std::make_unique<Filter>(parametersFrame, parametersBlock, width)`). -/
structure Platform where
  cpuHasAvx2 : Bool
  MFX_ENABLE_ENCTOOLS : Bool
  makeFilter : Nat → Filter

/-- What the collaborators answer during one `Init`: the result of
`MFXVideoENCODE_CreateEncTools`, whether `QueryCoreInterface<mfxFrameAllocator>` gives a
non-null allocator, and the status of the engine's `Init`. -/
structure InitEnv where
  createEncTools : Option mfxEncTools
  frameAllocator : Bool
  encToolsInit : mfxStatus

/-- What the collaborators answer during one frame call: the statuses of the engine's
`Submit` and `Query` and of the two surface locks. -/
structure FrameEnv where
  submitSts : mfxStatus
  querySts : mfxStatus
  inLockSts : mfxStatus
  outLockSts : mfxStatus

/-- Calls issued to the collaborators during a frame call. -/
inductive Event where
  | submit (displayOrder : Nat)
  | query (displayOrder : Nat) (allocatedSize : Nat) (timeout : Nat)
  | lockRead
  | lockWrite
  | processFrame (args : KernelArgs)

/-- Whether the event is a call of the engine's `Submit` or `Query`. -/
def Event.isHandshake : Event → Bool
  | Event.submit _ => true
  | Event.query _ _ _ => true
  | _ => false

/-- The data members of `PercEncFilter` used by the source unit. -/
structure PercEncFilter where
  m_initialized : Bool
  width : Nat
  height : Nat
  previousOutput : List Nat
  filter : Option Filter
  modulation : List Nat
  modulationStride : Nat
  m_encTools : Option mfxEncTools
  m_saliencyMapSupported : Bool
  m_frameCounter : Nat

/-- Modelled from the spec: the member initialisers are in the class declaration, which is
not part of the source unit; a constructed session is `Uninitialized`, holds no kernel and
no engine, and its buffers are empty. -/
def PercEncFilter.constructed : PercEncFilter :=
  { m_initialized := false, width := 0, height := 0, previousOutput := [], filter := none,
    modulation := [], modulationStride := 0, m_encTools := none,
    m_saliencyMapSupported := false, m_frameCounter := 0 }

/-- The effect of `std::vector::resize(n)`: keep the first `n` entries, pad with zeros. -/
def vectorResize (v : List Nat) (n : Nat) : List Nat :=
  v.take n ++ List.replicate (n - v.length) 0

/-- Store one byte through a raw pointer. -/
def Plane.write (p : Plane) (i v : Nat) : Plane :=
  fun j => if j = i then v else p j

/-- The call `std::copy(&src[first], &src[last], &dst[d])` with a raw-pointer destination:
elements are stored one after the other. -/
def copyToPlane (src : Plane) (first last : Nat) (dst : Plane) (d : Nat) : Plane :=
  (List.range (last - first)).foldl (fun acc k => acc.write (d + k) (src (first + k))) dst

/-- The call `std::copy(&src[first], &src[last], &dst[d])` with a destination inside a
vector. -/
def copyToVector (src : Plane) (first last : Nat) (dst : List Nat) (d : Nat) : List Nat :=
  (List.range (last - first)).foldl (fun acc k => acc.set (d + k) (src (first + k))) dst

/-! ## Init, Close, Reset -/

/-- The seven equality checks of lines 61-67 and the two minimum checks of lines 69-70. -/
def geometryChecks (inp out : mfxFrameInfo) : Bool :=
  inp.CropW == out.CropW && inp.CropH == out.CropH && inp.FourCC == out.FourCC &&
  inp.BitDepthLuma == out.BitDepthLuma && inp.BitDepthChroma == out.BitDepthChroma &&
  inp.ChromaFormat == out.ChromaFormat && inp.Shift == out.Shift &&
  decide (inp.CropW ≥ 16) && decide (inp.CropH ≥ 2)

/-- Lines 72-73: the geometry is taken from the input crop size. -/
def assignGeometry (s : PercEncFilter) (inp : mfxFrameInfo) : PercEncFilter :=
  { s with width := inp.CropW, height := inp.CropH }

/-- Lines 74-75 when `resize` succeeds: temporal buffer and kernel. -/
def allocateBuffers (plat : Platform) (s : PercEncFilter) : PercEncFilter :=
  { s with
    previousOutput := vectorResize s.previousOutput (s.width * s.height)
    filter := some (plat.makeFilter s.width) }

/-- Lines 72-75: geometry, temporal buffer and kernel. The argument of `resize` at line 74
is the `int` product `width * height` of two values read from `mfxU16` fields. A product
of `2^31` or more does not fit `int`: it reaches `resize` as a negative number, which as a
size is beyond `max_size()`, so `resize` throws `std::length_error` and the exception
leaves `Init`. That outcome is `Except.error` with the object as lines 72-73 left it;
otherwise the outcome is `Except.ok` with the object after line 75. -/
def initGeometry (plat : Platform) (s : PercEncFilter) (inp : mfxFrameInfo) :
    Except PercEncFilter PercEncFilter :=
  if 2 ^ 31 ≤ (assignGeometry s inp).width * (assignGeometry s inp).height then
    Except.error (assignGeometry s inp)
  else Except.ok (allocateBuffers plat (assignGeometry s inp))

/-- Lines 77-116: start of the saliency session and the final `m_initialized = true`. -/
def initEncTools (plat : Platform) (env : InitEnv) (s : PercEncFilter) :
    mfxStatus × PercEncFilter :=
  if plat.MFX_ENABLE_ENCTOOLS then
    let s2 := { s with m_frameCounter := 0, m_saliencyMapSupported := false,
                       m_encTools := env.createEncTools }
    match env.createEncTools with
    | some _ =>
      if env.frameAllocator then
        (MFX_ERR_NONE,
          { s2 with m_saliencyMapSupported := decide (env.encToolsInit = MFX_ERR_NONE),
                    m_initialized := true })
      else (MFX_ERR_NULL_PTR, s2)
    | none => (MFX_ERR_NONE, { s2 with m_initialized := true })
  else (MFX_ERR_NONE, { s with m_initialized := true })

/-- The function `PercEncFilter::Init(mfxFrameInfo* in, mfxFrameInfo* out)`: the status
returned (`none` when the exception of line 74 leaves the function) and the object
afterwards. -/
def Init (plat : Platform) (env : InitEnv) (s : PercEncFilter)
    (inp out : Option mfxFrameInfo) : Option mfxStatus × PercEncFilter :=
  if !plat.cpuHasAvx2 then (some MFX_ERR_UNSUPPORTED, s)
  else match inp, out with
    | none, _ => (some MFX_ERR_NULL_PTR, s)
    | some _, none => (some MFX_ERR_NULL_PTR, s)
    | some i, some o =>
      if s.m_initialized then (some MFX_ERR_NONE, s)
      else if !geometryChecks i o then (some MFX_ERR_INVALID_VIDEO_PARAM, s)
      else match initGeometry plat s i with
        | Except.error t => (none, t)
        | Except.ok t => (some (initEncTools plat env t).1, (initEncTools plat env t).2)

/-- The function `PercEncFilter::Close()`: closes and destroys the engine when there is
one; no data member is assigned. -/
def Close (_plat : Platform) (s : PercEncFilter) : mfxStatus × PercEncFilter :=
  (MFX_ERR_NONE, s)

/-- The function `PercEncFilter::Reset(mfxVideoParam* video_param)`: the status returned
(`none` when an exception leaves the `Init` it calls, and with it `Reset`) and the object
afterwards. -/
def Reset (plat : Platform) (env : InitEnv) (s : PercEncFilter)
    (video_param : Option mfxVideoParam) : Option mfxStatus × PercEncFilter :=
  match video_param with
  | none => (some MFX_ERR_NULL_PTR, s)
  | some vp =>
    let c := Close plat s
    if c.1 ≠ MFX_ERR_NONE then (some c.1, c.2)
    else
      let r := Init plat env c.2 (some vp.vpp.In) (some vp.vpp.Out)
      if r.1 ≠ some MFX_ERR_NONE then r else (some MFX_ERR_NONE, r.2)

/-! ## RunFrameVPP -/

/-- The outcome of one frame call: status, the object afterwards, the output surface
afterwards, and the calls issued to the collaborators. -/
structure FrameResult where
  sts : mfxStatus
  self : PercEncFilter
  out : Option mfxFrameSurface1
  trace : List Event

/-- The condition of lines 158-162 under which filtering is skipped. -/
def passThroughGuard (inp out : mfxFrameSurface1) : Bool :=
  inp.Info.CropX != out.Info.CropX || inp.Info.CropX != 0 ||
  inp.Info.CropY != out.Info.CropY || inp.Info.CropY != 0 ||
  inp.Info.CropW != out.Info.CropW ||
  inp.Info.CropH != out.Info.CropH ||
  inp.Data.Pitch != out.Data.Pitch

/-- The arguments handed to the kernel at line 221. -/
def kernelArgsOf (s : PercEncFilter) (inp out : mfxFrameSurface1) : KernelArgs :=
  { src := inp.Data.Y, srcStride := inp.Data.Pitch, modulation := s.modulation,
    modulationStride := s.modulationStride, previous := s.previousOutput,
    previousStride := s.width, dst := out.Data.Y, dstStride := out.Data.Pitch,
    width := s.width, height := s.height }

/-- Lines 225-229: the row-by-row luma copy used when there is no kernel. -/
def copyLuma (s : PercEncFilter) (inp out : mfxFrameSurface1) : Plane :=
  (List.range s.height).foldl
    (fun Y y => copyToPlane inp.Data.Y (out.Data.Pitch * y) (out.Data.Pitch * y + s.width)
                  Y (out.Data.Pitch * y))
    out.Data.Y

/-- Lines 233-237: the output luma is retained in `previousOutput`. -/
def retainOutput (s : PercEncFilter) (pitch : Nat) (Y : Plane) : List Nat :=
  (List.range s.height).foldl
    (fun prev y => copyToVector Y (pitch * y) (pitch * y + s.width) prev (s.width * y))
    s.previousOutput

/-- Lines 240-243: the chroma copy. -/
def copyChroma (s : PercEncFilter) (inp out : mfxFrameSurface1) : Plane :=
  copyToPlane inp.Data.UV 0 (inp.Data.Pitch * s.height / 2) out.Data.UV 0

/-- Lines 219-245: filtering (or luma copy), temporal update, chroma copy. -/
def processLocked (s : PercEncFilter) (inp out : mfxFrameSurface1) (tr : List Event) :
    FrameResult :=
  match s.filter with
  | some f =>
    let r := f.processFrame (kernelArgsOf s inp out)
    { sts := MFX_ERR_NONE
      self := { s with filter := some r.1,
                       previousOutput := retainOutput s out.Data.Pitch r.2 }
      out := some { out with Data := { out.Data with Y := r.2, UV := copyChroma s inp out } }
      trace := tr ++ [Event.processFrame (kernelArgsOf s inp out)] }
  | none =>
    { sts := MFX_ERR_NONE
      self := { s with previousOutput := retainOutput s out.Data.Pitch (copyLuma s inp out) }
      out := some { out with Data := { out.Data with Y := copyLuma s inp out,
                                                     UV := copyChroma s inp out } }
      trace := tr }

/-- Lines 215-245: the two surface locks, then the processing. -/
def lockAndProcess (env : FrameEnv) (s : PercEncFilter) (inp out : mfxFrameSurface1)
    (tr : List Event) : FrameResult :=
  if env.inLockSts ≠ MFX_ERR_NONE then
    { sts := env.inLockSts, self := s, out := some out, trace := tr ++ [Event.lockRead] }
  else if env.outLockSts ≠ MFX_ERR_NONE then
    { sts := env.outLockSts, self := s, out := some out,
      trace := tr ++ [Event.lockRead, Event.lockWrite] }
  else processLocked s inp out (tr ++ [Event.lockRead, Event.lockWrite])

/-- Line 194: `numOfBlocks = in->Info.Width * in->Info.Height / (blockSize * blockSize)`
in 32-bit unsigned arithmetic, with `blockSize = 8`. -/
def numOfBlocks (inp : mfxFrameSurface1) : Nat :=
  (inp.Info.Width * inp.Info.Height % 2 ^ 32) / (8 * 8)

/-- Lines 166-213: the saliency handshake. The result is the status checked by
`MFX_CHECK_STS` (a status other than `MFX_ERR_NONE` ends the frame call), the object
afterwards, and the engine calls issued. `Submit` carries `DisplayOrder = m_frameCounter`;
`Query` carries the same value, `AllocatedSize = numOfBlocks` and timeout 0, and the
counter is incremented before `Query` is called. -/
def saliencyHandshake (plat : Platform) (env : FrameEnv) (s : PercEncFilter)
    (inp : mfxFrameSurface1) : mfxStatus × PercEncFilter × List Event :=
  if plat.MFX_ENABLE_ENCTOOLS && s.m_saliencyMapSupported then
    if env.submitSts ≠ MFX_ERR_NONE then
      (env.submitSts, s, [Event.submit s.m_frameCounter])
    else
      (env.querySts,
       { s with m_frameCounter := (s.m_frameCounter + 1) % 2 ^ 32 },
       [Event.submit s.m_frameCounter, Event.query s.m_frameCounter (numOfBlocks inp) 0])
  else (MFX_ERR_NONE, s, [])

/-- The function `PercEncFilter::RunFrameVPP(mfxFrameSurface1* in, mfxFrameSurface1* out,
InternalParam*)`. -/
def RunFrameVPP (plat : Platform) (env : FrameEnv) (s : PercEncFilter)
    (inp out : Option mfxFrameSurface1) : FrameResult :=
  match inp, out with
  | none, _ => { sts := MFX_ERR_NULL_PTR, self := s, out := out, trace := [] }
  | some _, none => { sts := MFX_ERR_NULL_PTR, self := s, out := none, trace := [] }
  | some i, some o =>
    if passThroughGuard i o then
      { sts := MFX_ERR_NONE, self := s, out := some o, trace := [] }
    else if (saliencyHandshake plat env s i).1 ≠ MFX_ERR_NONE then
      { sts := (saliencyHandshake plat env s i).1, self := (saliencyHandshake plat env s i).2.1,
        out := some o, trace := (saliencyHandshake plat env s i).2.2 }
    else
      lockAndProcess env (saliencyHandshake plat env s i).2.1 i o
        (saliencyHandshake plat env s i).2.2

/-- The function `PercEncFilter::RunFrameVPPTask`, which forwards to `RunFrameVPP`. -/
def RunFrameVPPTask (plat : Platform) (env : FrameEnv) (s : PercEncFilter)
    (inp out : Option mfxFrameSurface1) : FrameResult :=
  RunFrameVPP plat env s inp out

/-- The function `PercEncFilter::IsReadyOutput(mfxRequestType)`; the request type is a
number and the object is not modified. -/
def IsReadyOutput (s : PercEncFilter) (_request : Nat) : Bool × PercEncFilter :=
  (true, s)

/-- One frame call as the host issues it: the surfaces and the collaborators' answers. -/
structure FrameCall where
  env : FrameEnv
  inp : Option mfxFrameSurface1
  out : Option mfxFrameSurface1

/-- A sequence of frame calls on one session: the results, in order. -/
def runFrames (plat : Platform) : PercEncFilter → List FrameCall → List FrameResult
  | _, [] => []
  | s, c :: cs =>
    RunFrameVPP plat c.env s c.inp c.out ::
      runFrames plat (RunFrameVPP plat c.env s c.inp c.out).self cs

/-- The session after a sequence of frame calls. -/
def afterFrames (plat : Platform) : PercEncFilter → List FrameCall → PercEncFilter
  | s, [] => s
  | s, c :: cs => afterFrames plat (RunFrameVPP plat c.env s c.inp c.out).self cs

/-! ## Concrete collaborators and frames used in the checked instances -/

/-- A kernel that counts its calls and produces the source plane with every byte
incremented. -/
def incKernel : Filter :=
  { state := [0], kernel := fun st a => (st.map (· + 1), fun j => a.src j + 1) }

/-- A platform with the CPU feature and the analysis engine compiled in. -/
def platEnc : Platform :=
  { cpuHasAvx2 := true, MFX_ENABLE_ENCTOOLS := true, makeFilter := fun _ => incKernel }

/-- A platform with the CPU feature and without the analysis engine. -/
def platPlain : Platform :=
  { cpuHasAvx2 := true, MFX_ENABLE_ENCTOOLS := false, makeFilter := fun _ => incKernel }

/-- An `Init` environment in which the engine is created and starts. -/
def envEngineOk : InitEnv :=
  { createEncTools := some { Context := 1 }, frameAllocator := true, encToolsInit := 0 }

/-- An `Init` environment in which the engine is created but the core has no frame
allocator. -/
def envNoAllocator : InitEnv :=
  { createEncTools := some { Context := 1 }, frameAllocator := false, encToolsInit := 0 }

/-- An `Init` environment in which no engine can be created. -/
def envNoEngine : InitEnv :=
  { createEncTools := none, frameAllocator := true, encToolsInit := 0 }

/-- A frame environment in which every collaborator call succeeds. -/
def envFrameOk : FrameEnv :=
  { submitSts := 0, querySts := 0, inLockSts := 0, outLockSts := 0 }

/-- A 4:2:0 8-bit descriptor with the given crop size and zero crop origin. -/
def info420 (w h : Nat) : mfxFrameInfo :=
  { BitDepthLuma := 8, BitDepthChroma := 8, Shift := 0, FourCC := 842094158,
    Width := w, Height := h, CropX := 0, CropY := 0, CropW := w, CropH := h,
    ChromaFormat := 1 }

/-- A surface of the given crop size and pitch whose planes hold one constant each. -/
def flatSurface (w h pitch luma chroma : Nat) : mfxFrameSurface1 :=
  { Info := info420 w h, Data := { Pitch := pitch, Y := fun _ => luma, UV := fun _ => chroma } }

/-- An `Init` environment in which the engine is created and its `Init` fails. -/
def envEngineInitFails : InitEnv :=
  { createEncTools := some { Context := 1 }, frameAllocator := true, encToolsInit := -1 }

/-- A session initialised with 16x2 on a platform without the analysis engine. -/
def session16x2 : PercEncFilter :=
  (Init platPlain envNoEngine PercEncFilter.constructed
    (some (info420 16 2)) (some (info420 16 2))).2

/-- A frame call on flat 16x2 surfaces of pitch 16: input luma 5, output luma 0. -/
def flatCall : FrameCall :=
  { env := envFrameOk, inp := some (flatSurface 16 2 16 5 7),
    out := some (flatSurface 16 2 16 0 0) }

/-- Parameters for `Reset` that carry the same geometry for input and output. -/
def paramsOf (g : mfxFrameInfo) : mfxVideoParam :=
  { vpp := { In := g, Out := g } }

/-- The condition of line 170 as compiled: the handshake runs when the engine is compiled
in and `m_saliencyMapSupported` is set. -/
def saliencyGate (plat : Platform) (s : PercEncFilter) : Bool :=
  plat.MFX_ENABLE_ENCTOOLS && s.m_saliencyMapSupported

/-- The `AllocatedSize` values announced to the engine by the `Query` calls of a trace. -/
def announcedSizes : List Event → List Nat
  | [] => []
  | Event.query _ n _ :: es => n :: announcedSizes es
  | _ :: es => announcedSizes es

/-- A platform whose CPU lacks the feature tested at line 52. -/
def platNoAvx2 : Platform :=
  { cpuHasAvx2 := false, MFX_ENABLE_ENCTOOLS := true, makeFilter := fun _ => incKernel }

/-- A session initialised with 16x2 with the engine compiled in, created and started: the
saliency gate is on. -/
def sessionEnc16x2 : PercEncFilter :=
  (Init platEnc envEngineOk PercEncFilter.constructed
    (some (info420 16 2)) (some (info420 16 2))).2

/-- A frame environment in which `Submit` fails with `MFX_ERR_UNKNOWN` (-1). -/
def envSubmitFails : FrameEnv :=
  { submitSts := -1, querySts := 0, inLockSts := 0, outLockSts := 0 }

/-- A frame environment in which `Submit` succeeds and `Query` answers that the map is not
ready yet, with the warning status `MFX_WRN_IN_EXECUTION` (1). -/
def envQueryNotReady : FrameEnv :=
  { submitSts := 0, querySts := 1, inLockSts := 0, outLockSts := 0 }

/-- A session initialised with 1920x1080 with the engine compiled in, created and
started. -/
def sessionEnc1080 : PercEncFilter :=
  (Init platEnc envEngineOk PercEncFilter.constructed
    (some (info420 1920 1080)) (some (info420 1920 1080))).2

/-- A surface with crop size 1920x1080 allocated as 1920x1088 (height aligned to 16),
pitch 1920. -/
def alignedSurface1080 (luma chroma : Nat) : mfxFrameSurface1 :=
  { Info := { info420 1920 1080 with Height := 1088 },
    Data := { Pitch := 1920, Y := fun _ => luma, UV := fun _ => chroma } }

/-- A session initialised with 1920x1080 when no analysis engine can be created. -/
def session1080 : PercEncFilter :=
  (Init platEnc envNoEngine PercEncFilter.constructed
    (some (info420 1920 1080)) (some (info420 1920 1080))).2

/-- The offsets that `std::copy(&src[first], &src[last], &dst[d])` touches, in order:
each pair is the offset read in the source and the offset written in the destination. -/
def copyOffsets (first last d : Nat) : List (Nat × Nat) :=
  (List.range (last - first)).map (fun k => (first + k, d + k))

/-- The offsets touched by the luma copy loop of lines 225-229 (read in `in->Data.Y`,
written in `out->Data.Y`). -/
def copyLumaOffsets (s : PercEncFilter) (out : mfxFrameSurface1) : List (Nat × Nat) :=
  (List.range s.height).flatMap
    (fun y => copyOffsets (out.Data.Pitch * y) (out.Data.Pitch * y + s.width)
                (out.Data.Pitch * y))

/-- The offsets touched by the temporal update of lines 233-237 (read in `out->Data.Y`,
written in `previousOutput`). -/
def retainOffsets (s : PercEncFilter) (pitch : Nat) : List (Nat × Nat) :=
  (List.range s.height).flatMap
    (fun y => copyOffsets (pitch * y) (pitch * y + s.width) (s.width * y))

/-- The offsets touched by the chroma copy of lines 240-243 (read in `in->Data.UV`,
written in `out->Data.UV`). -/
def copyChromaOffsets (s : PercEncFilter) (inp : mfxFrameSurface1) : List (Nat × Nat) :=
  copyOffsets 0 (inp.Data.Pitch * s.height / 2) 0

theorem geometryChecks_iff (i o : mfxFrameInfo) :
    geometryChecks i o = true ↔
      (i.CropW = o.CropW ∧ i.CropH = o.CropH ∧ i.FourCC = o.FourCC ∧
       i.BitDepthLuma = o.BitDepthLuma ∧ i.BitDepthChroma = o.BitDepthChroma ∧
       i.ChromaFormat = o.ChromaFormat ∧ i.Shift = o.Shift ∧ 16 ≤ i.CropW ∧ 2 ≤ i.CropH) := by
  simp [geometryChecks, and_assoc]

theorem initEncTools_status (plat : Platform) (env : InitEnv) (s : PercEncFilter) :
    (initEncTools plat env s).1 =
      if plat.MFX_ENABLE_ENCTOOLS = true ∧ env.createEncTools.isSome = true ∧
          env.frameAllocator = false
      then MFX_ERR_NULL_PTR else MFX_ERR_NONE := by
  unfold initEncTools
  cases plat.MFX_ENABLE_ENCTOOLS <;> cases env.createEncTools <;>
    cases env.frameAllocator <;> simp

theorem initGeometry_ok (plat : Platform) (s : PercEncFilter) (i : mfxFrameInfo)
    (hprod : i.CropW * i.CropH < 2 ^ 31) :
    initGeometry plat s i = Except.ok (allocateBuffers plat (assignGeometry s i)) := by
  unfold initGeometry
  rw [if_neg]
  exact Nat.not_le.mpr hprod

theorem initGeometry_throws (plat : Platform) (s : PercEncFilter) (i : mfxFrameInfo)
    (hprod : 2 ^ 31 ≤ i.CropW * i.CropH) :
    initGeometry plat s i = Except.error (assignGeometry s i) := by
  unfold initGeometry
  rw [if_pos]
  exact hprod

theorem Init_fresh_invalid (plat : Platform) (env : InitEnv) (s : PercEncFilter)
    (i o : mfxFrameInfo) (hcpu : plat.cpuHasAvx2 = true) (hu : s.m_initialized = false)
    (hg : geometryChecks i o = false) :
    Init plat env s (some i) (some o) = (some MFX_ERR_INVALID_VIDEO_PARAM, s) := by
  simp [Init, hcpu, hu, hg]

/-- On a session that is not initialised, `Init` with a pair that passes the geometry
checks and whose crop area fits `int` runs lines 72-116. -/
theorem Init_fresh_valid (plat : Platform) (env : InitEnv) (s : PercEncFilter)
    (i o : mfxFrameInfo) (hcpu : plat.cpuHasAvx2 = true) (hu : s.m_initialized = false)
    (hg : geometryChecks i o = true) (hprod : i.CropW * i.CropH < 2 ^ 31) :
    Init plat env s (some i) (some o) =
      (some (initEncTools plat env (allocateBuffers plat (assignGeometry s i))).1,
       (initEncTools plat env (allocateBuffers plat (assignGeometry s i))).2) := by
  simp [Init, hcpu, hu, hg, initGeometry_ok plat s i hprod]

/-- On a session that is not initialised, `Init` with a pair that passes the geometry
checks and whose crop area does not fit `int` is left by the exception of line 74: no
status is returned, the geometry is assigned and the session is not initialised. -/
theorem Init_fresh_throws (plat : Platform) (env : InitEnv) (s : PercEncFilter)
    (i o : mfxFrameInfo) (hcpu : plat.cpuHasAvx2 = true) (hu : s.m_initialized = false)
    (hg : geometryChecks i o = true) (hprod : 2 ^ 31 ≤ i.CropW * i.CropH) :
    Init plat env s (some i) (some o) = (none, assignGeometry s i) := by
  simp [Init, hcpu, hu, hg, initGeometry_throws plat s i hprod]

/-- The exception of line 74 at the smallest square crop whose area does not fit `int`:
`Init` with 46341x46341 on a constructed session returns no status and leaves the session
not initialised, with its buffer still empty. -/
theorem Init_int_overflow_throws :
    geometryChecks (info420 46341 46341) (info420 46341 46341) = true ∧
    (Init platPlain envNoEngine PercEncFilter.constructed
        (some (info420 46341 46341)) (some (info420 46341 46341))).1 = none ∧
    (Init platPlain envNoEngine PercEncFilter.constructed
        (some (info420 46341 46341)) (some (info420 46341 46341))).2.m_initialized = false ∧
    (Init platPlain envNoEngine PercEncFilter.constructed
        (some (info420 46341 46341)) (some (info420 46341 46341))).2.previousOutput = [] := by
  decide

theorem Init_status_fresh (plat : Platform) (env : InitEnv) (s : PercEncFilter)
    (i o : mfxFrameInfo) (hcpu : plat.cpuHasAvx2 = true) (hs : s.m_initialized = false) :
    (Init plat env s (some i) (some o)).1 =
      if geometryChecks i o = true then
        (if 2 ^ 31 ≤ i.CropW * i.CropH then none
         else if plat.MFX_ENABLE_ENCTOOLS = true ∧ env.createEncTools.isSome = true ∧
            env.frameAllocator = false
         then some MFX_ERR_NULL_PTR else some MFX_ERR_NONE)
      else some MFX_ERR_INVALID_VIDEO_PARAM := by
  cases hg : geometryChecks i o
  · rw [Init_fresh_invalid plat env s i o hcpu hs hg]
    simp
  · by_cases hprod : 2 ^ 31 ≤ i.CropW * i.CropH
    · rw [Init_fresh_throws plat env s i o hcpu hs hg hprod, if_pos rfl, if_pos hprod]
    · rw [Init_fresh_valid plat env s i o hcpu hs hg (Nat.not_le.mp hprod), if_pos rfl,
        if_neg hprod]
      show some (initEncTools plat env _).1 = _
      rw [initEncTools_status]
      split <;> rfl

theorem Init_success_cpu (plat : Platform) (env : InitEnv) (s : PercEncFilter)
    (i o : Option mfxFrameInfo) (hI : (Init plat env s i o).1 = MFX_ERR_NONE) :
    plat.cpuHasAvx2 = true := by
  cases hcpu : plat.cpuHasAvx2
  · simp [Init, hcpu, MFX_ERR_UNSUPPORTED, MFX_ERR_NONE] at hI
  · rfl

/-- A successful `Init` on a session that was not initialised passed the geometry checks,
had a crop area that fits `int`, and ran lines 72-116 to their end. -/
theorem Init_fresh_success (plat : Platform) (env : InitEnv) (s : PercEncFilter)
    (i o : mfxFrameInfo) (hu : s.m_initialized = false)
    (hI : (Init plat env s (some i) (some o)).1 = MFX_ERR_NONE) :
    plat.cpuHasAvx2 = true ∧ geometryChecks i o = true ∧ i.CropW * i.CropH < 2 ^ 31 ∧
    (initEncTools plat env (allocateBuffers plat (assignGeometry s i))).1 = MFX_ERR_NONE ∧
    (Init plat env s (some i) (some o)).2 =
      (initEncTools plat env (allocateBuffers plat (assignGeometry s i))).2 := by
  have hcpu := Init_success_cpu plat env s _ _ hI
  cases hg : geometryChecks i o
  · rw [Init_fresh_invalid plat env s i o hcpu hu hg] at hI
    simp [MFX_ERR_INVALID_VIDEO_PARAM, MFX_ERR_NONE] at hI
  · by_cases hprod : 2 ^ 31 ≤ i.CropW * i.CropH
    · rw [Init_fresh_throws plat env s i o hcpu hu hg hprod] at hI
      simp at hI
    · have hlt := Nat.not_le.mp hprod
      rw [Init_fresh_valid plat env s i o hcpu hu hg hlt] at hI ⊢
      exact ⟨hcpu, rfl, hlt, Option.some.inj hI, rfl⟩

/-- C1 (as stated, refuted): with the analysis engine compiled in and created, and no
frame allocator available from the core, `Init` on a constructed session with two equal
64x32 geometries returns `MFX_ERR_NULL_PTR`: neither success nor
`MFX_ERR_INVALID_VIDEO_PARAM`, although every geometry condition of the claim holds. -/
theorem C1_valid_geometry_null_allocator :
    (info420 64 32).CropW = (info420 64 32).CropW ∧ 16 ≤ (info420 64 32).CropW ∧
    2 ≤ (info420 64 32).CropH ∧
    geometryChecks (info420 64 32) (info420 64 32) = true ∧
    platEnc.cpuHasAvx2 = true ∧ PercEncFilter.constructed.m_initialized = false ∧
    (Init platEnc envNoAllocator PercEncFilter.constructed
        (some (info420 64 32)) (some (info420 64 32))).1 = MFX_ERR_NULL_PTR ∧
    (Init platEnc envNoAllocator PercEncFilter.constructed
        (some (info420 64 32)) (some (info420 64 32))).1 ≠ MFX_ERR_NONE ∧
    (Init platEnc envNoAllocator PercEncFilter.constructed
        (some (info420 64 32)) (some (info420 64 32))).1 ≠ MFX_ERR_INVALID_VIDEO_PARAM := by
  decide

/-- C1 (amended): on a session on which no `Init` has succeeded, with the CPU feature
present and both geometries present, for an input crop area `CropW * CropH` that fits
`int` (below `2^31`): `Init` returns success exactly when the seven fields agree,
`CropW >= 16`, `CropH >= 2`, and it is not the case that the engine is compiled in and
created while the core gives no frame allocator; it returns `MFX_ERR_INVALID_VIDEO_PARAM`
exactly when the geometry conditions fail; and it returns `MFX_ERR_NULL_PTR` exactly when
the geometry conditions hold and the created engine finds no frame allocator. -/
theorem C1_Init_status (plat : Platform) (env : InitEnv) (s : PercEncFilter)
    (i o : mfxFrameInfo) (hcpu : plat.cpuHasAvx2 = true) (hs : s.m_initialized = false)
    (hprod : i.CropW * i.CropH < 2 ^ 31) :
    ((Init plat env s (some i) (some o)).1 = MFX_ERR_NONE ↔
      ((i.CropW = o.CropW ∧ i.CropH = o.CropH ∧ i.FourCC = o.FourCC ∧
        i.BitDepthLuma = o.BitDepthLuma ∧ i.BitDepthChroma = o.BitDepthChroma ∧
        i.ChromaFormat = o.ChromaFormat ∧ i.Shift = o.Shift ∧ 16 ≤ i.CropW ∧ 2 ≤ i.CropH) ∧
       ¬ (plat.MFX_ENABLE_ENCTOOLS = true ∧ env.createEncTools.isSome = true ∧
          env.frameAllocator = false))) ∧
    ((Init plat env s (some i) (some o)).1 = MFX_ERR_INVALID_VIDEO_PARAM ↔
      ¬ (i.CropW = o.CropW ∧ i.CropH = o.CropH ∧ i.FourCC = o.FourCC ∧
        i.BitDepthLuma = o.BitDepthLuma ∧ i.BitDepthChroma = o.BitDepthChroma ∧
        i.ChromaFormat = o.ChromaFormat ∧ i.Shift = o.Shift ∧ 16 ≤ i.CropW ∧ 2 ≤ i.CropH)) ∧
    ((Init plat env s (some i) (some o)).1 = MFX_ERR_NULL_PTR ↔
      ((i.CropW = o.CropW ∧ i.CropH = o.CropH ∧ i.FourCC = o.FourCC ∧
        i.BitDepthLuma = o.BitDepthLuma ∧ i.BitDepthChroma = o.BitDepthChroma ∧
        i.ChromaFormat = o.ChromaFormat ∧ i.Shift = o.Shift ∧ 16 ≤ i.CropW ∧ 2 ≤ i.CropH) ∧
       plat.MFX_ENABLE_ENCTOOLS = true ∧ env.createEncTools.isSome = true ∧
       env.frameAllocator = false)) := by
  rw [Init_status_fresh plat env s i o hcpu hs, ← geometryChecks_iff,
    if_neg (Nat.not_le.mpr hprod)]
  by_cases hg : geometryChecks i o = true <;>
    by_cases ha : (plat.MFX_ENABLE_ENCTOOLS = true ∧ env.createEncTools.isSome = true ∧
          env.frameAllocator = false) <;>
    simp [hg, ha, MFX_ERR_NONE, MFX_ERR_NULL_PTR, MFX_ERR_INVALID_VIDEO_PARAM]

/-- C1 (amended), checked on a constructed session with two equal 64x32 geometries and an
engine that starts. -/
theorem C1_Init_status_witness :
    (Init platEnc envEngineOk PercEncFilter.constructed
        (some (info420 64 32)) (some (info420 64 32))).1 = MFX_ERR_NONE := by
  have h := (C1_Init_status platEnc envEngineOk PercEncFilter.constructed
    (info420 64 32) (info420 64 32) (by decide) (by decide) (by decide)).1
  exact h.2 (by decide)

/-! ## RunFrameVPP: the skip path and the failure paths -/

theorem passThroughGuard_iff (i o : mfxFrameSurface1) :
    passThroughGuard i o = true ↔
      (i.Info.CropX ≠ o.Info.CropX ∨ i.Info.CropX ≠ 0 ∨
       i.Info.CropY ≠ o.Info.CropY ∨ i.Info.CropY ≠ 0 ∨
       i.Info.CropW ≠ o.Info.CropW ∨ i.Info.CropH ≠ o.Info.CropH ∨
       i.Data.Pitch ≠ o.Data.Pitch) := by
  simp [passThroughGuard, or_assoc]

theorem RunFrameVPP_skip (plat : Platform) (env : FrameEnv) (s : PercEncFilter)
    (i o : mfxFrameSurface1) (hg : passThroughGuard i o = true) :
    RunFrameVPP plat env s (some i) (some o) =
      { sts := MFX_ERR_NONE, self := s, out := some o, trace := [] } := by
  simp [RunFrameVPP, hg]

theorem RunFrameVPP_handshake_failed (plat : Platform) (env : FrameEnv) (s : PercEncFilter)
    (i o : mfxFrameSurface1) (hg : passThroughGuard i o = false)
    (hh : (saliencyHandshake plat env s i).1 ≠ MFX_ERR_NONE) :
    RunFrameVPP plat env s (some i) (some o) =
      { sts := (saliencyHandshake plat env s i).1, self := (saliencyHandshake plat env s i).2.1,
        out := some o, trace := (saliencyHandshake plat env s i).2.2 } := by
  simp [RunFrameVPP, hg, hh]

theorem RunFrameVPP_locked (plat : Platform) (env : FrameEnv) (s : PercEncFilter)
    (i o : mfxFrameSurface1) (hg : passThroughGuard i o = false)
    (hh : (saliencyHandshake plat env s i).1 = MFX_ERR_NONE) :
    RunFrameVPP plat env s (some i) (some o) =
      lockAndProcess env (saliencyHandshake plat env s i).2.1 i o
        (saliencyHandshake plat env s i).2.2 := by
  simp [RunFrameVPP, hg, hh]

theorem processLocked_sts (s : PercEncFilter) (i o : mfxFrameSurface1) (tr : List Event) :
    (processLocked s i o tr).sts = MFX_ERR_NONE := by
  unfold processLocked
  cases s.filter <;> rfl

theorem lockAndProcess_failure (env : FrameEnv) (s : PercEncFilter)
    (i o : mfxFrameSurface1) (tr : List Event)
    (h : (lockAndProcess env s i o tr).sts ≠ MFX_ERR_NONE) :
    (lockAndProcess env s i o tr).out = some o ∧ (lockAndProcess env s i o tr).self = s := by
  unfold lockAndProcess at h ⊢
  by_cases h1 : env.inLockSts ≠ MFX_ERR_NONE
  · simp [h1]
  · by_cases h2 : env.outLockSts ≠ MFX_ERR_NONE
    · simp [h1, h2]
    · simp only [h1, h2, if_false] at h
      exact absurd (processLocked_sts _ _ _ _) h

/-- C2: when the crop origins differ, the input crop origin is nonzero, the crop widths or
heights differ, or the pitches differ, `RunFrameVPP` returns success, the output surface
(luma and chroma), `previousOutput`, the frame counter and indeed the whole object are
unchanged, and no call is issued to the engine, the locks or the kernel. -/
theorem C2_pass_through_guard (plat : Platform) (env : FrameEnv) (s : PercEncFilter)
    (i o : mfxFrameSurface1)
    (h : (i.Info.CropX ≠ o.Info.CropX ∨ i.Info.CropY ≠ o.Info.CropY) ∨
         (i.Info.CropX ≠ 0 ∨ i.Info.CropY ≠ 0) ∨
         (i.Info.CropW ≠ o.Info.CropW ∨ i.Info.CropH ≠ o.Info.CropH) ∨
         i.Data.Pitch ≠ o.Data.Pitch) :
    (RunFrameVPP plat env s (some i) (some o)).sts = MFX_ERR_NONE ∧
    (RunFrameVPP plat env s (some i) (some o)).out = some o ∧
    (RunFrameVPP plat env s (some i) (some o)).self.previousOutput = s.previousOutput ∧
    (RunFrameVPP plat env s (some i) (some o)).self.m_frameCounter = s.m_frameCounter ∧
    (RunFrameVPP plat env s (some i) (some o)).self = s ∧
    (RunFrameVPP plat env s (some i) (some o)).trace = [] := by
  have hg : passThroughGuard i o = true := by
    rw [passThroughGuard_iff]
    tauto
  simp [RunFrameVPP, hg]

/-- C2, checked on a frame pair whose pitches differ (16 against 32). -/
theorem C2_pass_through_guard_witness :
    (RunFrameVPP platEnc envFrameOk PercEncFilter.constructed
        (some (flatSurface 16 2 16 5 7)) (some (flatSurface 16 2 32 0 0))).sts = MFX_ERR_NONE ∧
    (RunFrameVPP platEnc envFrameOk PercEncFilter.constructed
        (some (flatSurface 16 2 16 5 7)) (some (flatSurface 16 2 32 0 0))).trace = [] :=
  have h := C2_pass_through_guard platEnc envFrameOk PercEncFilter.constructed
    (flatSurface 16 2 16 5 7) (flatSurface 16 2 32 0 0)
    (Or.inr (Or.inr (Or.inr (by decide))))
  ⟨h.1, h.2.2.2.2.2⟩

theorem saliencyHandshake_previousOutput (plat : Platform) (env : FrameEnv)
    (s : PercEncFilter) (i : mfxFrameSurface1) :
    (saliencyHandshake plat env s i).2.1.previousOutput = s.previousOutput := by
  unfold saliencyHandshake
  split
  · split <;> rfl
  · rfl

/-- C6: whenever `RunFrameVPP` returns a status other than success (null input or output,
`Submit` failure, `Query` failure, read-lock failure, write-lock failure), the output
surface (luma and chroma) and `previousOutput` are exactly what they were before the
call. -/
theorem C6_failure_leaves_buffers (plat : Platform) (env : FrameEnv) (s : PercEncFilter)
    (inp out : Option mfxFrameSurface1)
    (h : (RunFrameVPP plat env s inp out).sts ≠ MFX_ERR_NONE) :
    (RunFrameVPP plat env s inp out).out = out ∧
    (RunFrameVPP plat env s inp out).self.previousOutput = s.previousOutput := by
  cases inp with
  | none => simp [RunFrameVPP]
  | some i =>
    cases out with
    | none => simp [RunFrameVPP]
    | some o =>
      cases hg : passThroughGuard i o with
      | true => simp [RunFrameVPP_skip plat env s i o hg]
      | false =>
        by_cases hh : (saliencyHandshake plat env s i).1 = MFX_ERR_NONE
        · rw [RunFrameVPP_locked plat env s i o hg hh] at h ⊢
          have hl := lockAndProcess_failure _ _ _ _ _ h
          exact ⟨hl.1, by rw [hl.2]; exact saliencyHandshake_previousOutput plat env s i⟩
        · rw [RunFrameVPP_handshake_failed plat env s i o hg hh]
          exact ⟨rfl, saliencyHandshake_previousOutput plat env s i⟩

/-- C6, checked on a call whose input surface is null. -/
theorem C6_failure_leaves_buffers_witness :
    (RunFrameVPP platEnc envFrameOk PercEncFilter.constructed
        none (some (flatSurface 16 2 16 0 0))).out = some (flatSurface 16 2 16 0 0) ∧
    (RunFrameVPP platEnc envFrameOk PercEncFilter.constructed
        none (some (flatSurface 16 2 16 0 0))).self.previousOutput =
      PercEncFilter.constructed.previousOutput :=
  C6_failure_leaves_buffers platEnc envFrameOk PercEncFilter.constructed
    none (some (flatSurface 16 2 16 0 0)) (by decide)

/-! ## The copy loops -/

theorem copyToPlane_apply (src : Plane) (first last : Nat) (dst : Plane) (d j : Nat) :
    copyToPlane src first last dst d j =
      if d ≤ j ∧ j < d + (last - first) then src (first + (j - d)) else dst j := by
  unfold copyToPlane
  generalize last - first = n
  induction n with
  | zero =>
    simp only [List.range_zero, List.foldl_nil]
    rw [if_neg (by omega)]
  | succ n ih =>
    rw [List.range_succ, List.foldl_append]
    simp only [List.foldl_cons, List.foldl_nil, Plane.write]
    by_cases hj : j = d + n
    · subst hj
      simp
    · rw [if_neg hj, ih]
      by_cases h1 : d ≤ j ∧ j < d + n
      · rw [if_pos h1, if_pos ⟨h1.1, by omega⟩]
      · rw [if_neg h1, if_neg (by omega)]

theorem copyToVector_length (src : Plane) (first last : Nat) (dst : List Nat) (d : Nat) :
    (copyToVector src first last dst d).length = dst.length := by
  unfold copyToVector
  generalize last - first = n
  induction n with
  | zero => simp
  | succ n ih =>
    rw [List.range_succ, List.foldl_append]
    simp [ih]

theorem retainRows_length (w pitch : Nat) (Y : Plane) (prev : List Nat) (n : Nat) :
    ((List.range n).foldl
      (fun p r => copyToVector Y (pitch * r) (pitch * r + w) p (w * r)) prev).length =
      prev.length := by
  induction n with
  | zero => simp
  | succ n ih =>
    rw [List.range_succ, List.foldl_append]
    simp only [List.foldl_cons, List.foldl_nil]
    rw [copyToVector_length, ih]

theorem retainOutput_length (s : PercEncFilter) (pitch : Nat) (Y : Plane) :
    (retainOutput s pitch Y).length = s.previousOutput.length := by
  unfold retainOutput
  exact retainRows_length s.width pitch Y s.previousOutput s.height

theorem copyChroma_apply (s : PercEncFilter) (i o : mfxFrameSurface1) (j : Nat) :
    copyChroma s i o j =
      if j < i.Data.Pitch * s.height / 2 then i.Data.UV j else o.Data.UV j := by
  unfold copyChroma
  rw [copyToPlane_apply]
  by_cases h : j < i.Data.Pitch * s.height / 2
  · rw [if_pos h, if_pos (by omega)]
    congr 1
    omega
  · rw [if_neg h, if_neg (by omega)]

/-! ## RunFrameVPP: the processing path -/

theorem saliencyHandshake_self (plat : Platform) (env : FrameEnv) (s : PercEncFilter)
    (i : mfxFrameSurface1) :
    (saliencyHandshake plat env s i).2.1 =
      { s with m_frameCounter := (saliencyHandshake plat env s i).2.1.m_frameCounter } := by
  unfold saliencyHandshake
  split
  · split <;> rfl
  · rfl

theorem processLocked_filter (s : PercEncFilter) (i o : mfxFrameSurface1)
    (tr : List Event) (f : Filter) (hf : s.filter = some f) :
    processLocked s i o tr =
      { sts := MFX_ERR_NONE
        self := { s with filter := some (f.processFrame (kernelArgsOf s i o)).1,
                         previousOutput :=
                           retainOutput s o.Data.Pitch (f.processFrame (kernelArgsOf s i o)).2 }
        out := some { o with Data := { o.Data with
                        Y := (f.processFrame (kernelArgsOf s i o)).2,
                        UV := copyChroma s i o } }
        trace := tr ++ [Event.processFrame (kernelArgsOf s i o)] } := by
  unfold processLocked
  rw [hf]

/-- The chroma bytes that the frame call copies: the first `Pitch * height / 2` (rounded
down) bytes of the output chroma plane equal the input chroma plane, and the bytes from
there on are left as they were. -/
theorem processLocked_chroma (s : PercEncFilter) (i o : mfxFrameSurface1) (tr : List Event) :
    ∃ r, (processLocked s i o tr).out = some r ∧ r.Data.Pitch = o.Data.Pitch ∧
      (∀ j, j < i.Data.Pitch * s.height / 2 → r.Data.UV j = i.Data.UV j) ∧
      (∀ j, i.Data.Pitch * s.height / 2 ≤ j → r.Data.UV j = o.Data.UV j) := by
  unfold processLocked
  cases s.filter with
  | none =>
    refine ⟨_, rfl, rfl, ?_, ?_⟩
    · intro j hj
      show copyChroma s i o j = _
      rw [copyChroma_apply, if_pos hj]
    · intro j hj
      show copyChroma s i o j = _
      rw [copyChroma_apply, if_neg (by omega)]
  | some f =>
    refine ⟨_, rfl, rfl, ?_, ?_⟩
    · intro j hj
      show copyChroma s i o j = _
      rw [copyChroma_apply, if_pos hj]
    · intro j hj
      show copyChroma s i o j = _
      rw [copyChroma_apply, if_neg (by omega)]

/-- C5 (the code at an odd height): on a session initialised with 16x3, a frame call with
pitch 16 on an input whose chroma bytes are all 7 and an output whose chroma bytes are all
0 returns success, and output chroma byte 24 is still 0: the call copies
`16 * 3 / 2 = 24` bytes, while the chroma plane of a 4:2:0 frame of height 3 has
`16 * ceil(3/2) = 32`. -/
theorem C5_chroma_odd_height :
    (Init platPlain envNoEngine PercEncFilter.constructed
        (some (info420 16 3)) (some (info420 16 3))).1 = MFX_ERR_NONE ∧
    passThroughGuard (flatSurface 16 3 16 5 7) (flatSurface 16 3 16 0 0) = false ∧
    (RunFrameVPP platPlain envFrameOk
        (Init platPlain envNoEngine PercEncFilter.constructed
          (some (info420 16 3)) (some (info420 16 3))).2
        (some (flatSurface 16 3 16 5 7)) (some (flatSurface 16 3 16 0 0))).sts = MFX_ERR_NONE ∧
    24 < 16 * ((3 + 1) / 2) ∧
    (flatSurface 16 3 16 5 7).Data.UV 24 = 7 ∧
    ((RunFrameVPP platPlain envFrameOk
        (Init platPlain envNoEngine PercEncFilter.constructed
          (some (info420 16 3)) (some (info420 16 3))).2
        (some (flatSurface 16 3 16 5 7)) (some (flatSurface 16 3 16 0 0))).out.map
      (fun r => (r.Data.UV 23, r.Data.UV 24))) = some (7, 0) := by
  decide

/-! ## Temporal feedback -/

theorem vectorResize_length (v : List Nat) (n : Nat) : (vectorResize v n).length = n := by
  unfold vectorResize
  rw [List.length_append, List.length_take, List.length_replicate]
  omega

theorem vectorResize_zeros (v : List Nat) (n : Nat) (hz : ∀ b ∈ v, b = 0) :
    vectorResize v n = List.replicate n 0 := by
  rw [List.eq_replicate_iff]
  refine ⟨vectorResize_length v n, ?_⟩
  intro b hb
  unfold vectorResize at hb
  rcases List.mem_append.mp hb with h | h
  · exact hz b (List.mem_of_mem_take h)
  · exact (List.mem_replicate.mp h).2

theorem initEncTools_state (plat : Platform) (env : InitEnv) (s : PercEncFilter) :
    (initEncTools plat env s).2.width = s.width ∧
    (initEncTools plat env s).2.height = s.height ∧
    (initEncTools plat env s).2.previousOutput = s.previousOutput ∧
    (initEncTools plat env s).2.filter = s.filter ∧
    ((initEncTools plat env s).1 = MFX_ERR_NONE →
      (initEncTools plat env s).2.m_initialized = true) := by
  unfold initEncTools
  cases plat.MFX_ENABLE_ENCTOOLS <;> cases env.createEncTools <;>
    cases env.frameAllocator <;> simp [MFX_ERR_NULL_PTR, MFX_ERR_NONE]

/-- The object after a successful `Init` on a session that was not initialised. -/
theorem Init_fresh_state (plat : Platform) (env : InitEnv) (s : PercEncFilter)
    (i o : mfxFrameInfo) (hu : s.m_initialized = false)
    (hI : (Init plat env s (some i) (some o)).1 = MFX_ERR_NONE) :
    (Init plat env s (some i) (some o)).2.width = i.CropW ∧
    (Init plat env s (some i) (some o)).2.height = i.CropH ∧
    (Init plat env s (some i) (some o)).2.previousOutput =
      vectorResize s.previousOutput (i.CropW * i.CropH) ∧
    (Init plat env s (some i) (some o)).2.filter = some (plat.makeFilter i.CropW) ∧
    (Init plat env s (some i) (some o)).2.m_initialized = true := by
  obtain ⟨_, _, _, hsts, heq⟩ := Init_fresh_success plat env s i o hu hI
  have h := initEncTools_state plat env (allocateBuffers plat (assignGeometry s i))
  rw [heq]
  exact ⟨h.1, h.2.1, h.2.2.1, h.2.2.2.1, h.2.2.2.2 hsts⟩

theorem saliencyHandshake_state (plat : Platform) (env : FrameEnv) (s : PercEncFilter)
    (i : mfxFrameSurface1) :
    ∃ c, (saliencyHandshake plat env s i).2.1 = { s with m_frameCounter := c } :=
  ⟨_, saliencyHandshake_self plat env s i⟩

theorem constructed_buffer_zero : ∀ b ∈ PercEncFilter.constructed.previousOutput, b = 0 :=
  fun b hb => absurd hb (List.not_mem_nil b)

/-- The `Init` function never puts a non-zero entry into `previousOutput`: a buffer that
holds only zeros before `Init` holds only zeros after it, whatever `Init` returns. -/
theorem Init_keeps_zero_buffer (plat : Platform) (env : InitEnv) (s : PercEncFilter)
    (inp out : Option mfxFrameInfo) (hz : ∀ b ∈ s.previousOutput, b = 0) :
    ∀ b ∈ (Init plat env s inp out).2.previousOutput, b = 0 := by
  unfold Init
  split
  · exact hz
  · split
    · exact hz
    · exact hz
    · split
      · exact hz
      · split
        · exact hz
        · rename_i i o _ _
          by_cases hprod : 2 ^ 31 ≤ i.CropW * i.CropH
          · rw [initGeometry_throws plat s i hprod]
            exact hz
          · rw [initGeometry_ok plat s i (Nat.not_le.mp hprod)]
            show ∀ b ∈ (initEncTools plat env _).2.previousOutput, b = 0
            rw [(initEncTools_state plat env _).2.2.1]
            intro b hb
            have hv := vectorResize_zeros s.previousOutput (i.CropW * i.CropH) hz
            have hb2 : b ∈ vectorResize s.previousOutput (i.CropW * i.CropH) := hb
            rw [hv] at hb2
            exact (List.mem_replicate.mp hb2).2

theorem processLocked_invariant (s : PercEncFilter) (i o : mfxFrameSurface1)
    (tr : List Event) :
    (processLocked s i o tr).self.m_initialized = s.m_initialized ∧
    (processLocked s i o tr).self.width = s.width ∧
    (processLocked s i o tr).self.height = s.height ∧
    (processLocked s i o tr).self.m_saliencyMapSupported = s.m_saliencyMapSupported ∧
    (processLocked s i o tr).self.m_encTools = s.m_encTools ∧
    (processLocked s i o tr).self.previousOutput.length = s.previousOutput.length := by
  unfold processLocked
  cases s.filter with
  | none => exact ⟨rfl, rfl, rfl, rfl, rfl, retainOutput_length s _ _⟩
  | some f => exact ⟨rfl, rfl, rfl, rfl, rfl, retainOutput_length s _ _⟩

theorem lockAndProcess_invariant (env : FrameEnv) (s : PercEncFilter)
    (i o : mfxFrameSurface1) (tr : List Event) :
    (lockAndProcess env s i o tr).self.m_initialized = s.m_initialized ∧
    (lockAndProcess env s i o tr).self.width = s.width ∧
    (lockAndProcess env s i o tr).self.height = s.height ∧
    (lockAndProcess env s i o tr).self.m_saliencyMapSupported = s.m_saliencyMapSupported ∧
    (lockAndProcess env s i o tr).self.m_encTools = s.m_encTools ∧
    (lockAndProcess env s i o tr).self.previousOutput.length = s.previousOutput.length := by
  unfold lockAndProcess
  split
  · exact ⟨rfl, rfl, rfl, rfl, rfl, rfl⟩
  · split
    · exact ⟨rfl, rfl, rfl, rfl, rfl, rfl⟩
    · exact processLocked_invariant s i o _

/-- A frame call changes neither the initialised flag, nor the geometry, nor the saliency
gate, nor the engine handle, nor the length of `previousOutput`. -/
theorem RunFrameVPP_invariant (plat : Platform) (env : FrameEnv) (s : PercEncFilter)
    (inp out : Option mfxFrameSurface1) :
    (RunFrameVPP plat env s inp out).self.m_initialized = s.m_initialized ∧
    (RunFrameVPP plat env s inp out).self.width = s.width ∧
    (RunFrameVPP plat env s inp out).self.height = s.height ∧
    (RunFrameVPP plat env s inp out).self.m_saliencyMapSupported =
      s.m_saliencyMapSupported ∧
    (RunFrameVPP plat env s inp out).self.m_encTools = s.m_encTools ∧
    (RunFrameVPP plat env s inp out).self.previousOutput.length =
      s.previousOutput.length := by
  cases inp with
  | none => exact ⟨rfl, rfl, rfl, rfl, rfl, rfl⟩
  | some i =>
    cases out with
    | none => exact ⟨rfl, rfl, rfl, rfl, rfl, rfl⟩
    | some o =>
      obtain ⟨c, hc⟩ := saliencyHandshake_state plat env s i
      cases hg : passThroughGuard i o with
      | true =>
        rw [RunFrameVPP_skip plat env s i o hg]
        exact ⟨rfl, rfl, rfl, rfl, rfl, rfl⟩
      | false =>
        by_cases hh : (saliencyHandshake plat env s i).1 = MFX_ERR_NONE
        · rw [RunFrameVPP_locked plat env s i o hg hh, hc]
          exact lockAndProcess_invariant env { s with m_frameCounter := c } i o _
        · rw [RunFrameVPP_handshake_failed plat env s i o hg hh, hc]
          exact ⟨rfl, rfl, rfl, rfl, rfl, rfl⟩

theorem afterFrames_invariant (plat : Platform) (calls : List FrameCall) :
    ∀ s : PercEncFilter,
      (afterFrames plat s calls).m_initialized = s.m_initialized ∧
      (afterFrames plat s calls).m_saliencyMapSupported = s.m_saliencyMapSupported := by
  induction calls with
  | nil => intro s; exact ⟨rfl, rfl⟩
  | cons c cs ih =>
    intro s
    have h := RunFrameVPP_invariant plat c.env s c.inp c.out
    have h2 := ih (RunFrameVPP plat c.env s c.inp c.out).self
    exact ⟨h2.1.trans h.1, h2.2.trans h.2.2.2.1⟩

/-! ## Saliency gate -/

theorem lockAndProcess_no_handshake (env : FrameEnv) (s : PercEncFilter)
    (i o : mfxFrameSurface1) :
    ∀ e ∈ (lockAndProcess env s i o []).trace, e.isHandshake = false := by
  unfold lockAndProcess
  split
  · intro e he
    simp only [List.nil_append, List.mem_singleton] at he
    subst he
    rfl
  · split
    · intro e he
      simp only [List.nil_append, List.mem_cons, List.mem_singleton, List.not_mem_nil,
        or_false] at he
      rcases he with rfl | rfl <;> rfl
    · unfold processLocked
      cases s.filter with
      | none =>
        intro e he
        simp only [List.nil_append, List.mem_cons, List.mem_singleton, List.not_mem_nil,
          or_false] at he
        rcases he with rfl | rfl <;> rfl
      | some f =>
        intro e he
        simp only [List.nil_append, List.cons_append, List.mem_cons, List.mem_singleton,
          List.not_mem_nil, or_false] at he
        rcases he with rfl | rfl | rfl <;> rfl

/-- With the gate off, a frame call issues neither `Submit` nor `Query`. -/
theorem RunFrameVPP_gate_off (plat : Platform) (env : FrameEnv) (s : PercEncFilter)
    (inp out : Option mfxFrameSurface1)
    (hoff : (plat.MFX_ENABLE_ENCTOOLS && s.m_saliencyMapSupported) = false) :
    ∀ e ∈ (RunFrameVPP plat env s inp out).trace, e.isHandshake = false := by
  cases inp with
  | none => intro e he; simp [RunFrameVPP] at he
  | some i =>
    cases out with
    | none => intro e he; simp [RunFrameVPP] at he
    | some o =>
      have hh : saliencyHandshake plat env s i = (MFX_ERR_NONE, s, []) := by
        unfold saliencyHandshake
        rw [hoff]
        rfl
      cases hg : passThroughGuard i o with
      | true =>
        rw [RunFrameVPP_skip plat env s i o hg]
        intro e he
        simp at he
      | false =>
        rw [RunFrameVPP_locked plat env s i o hg (by rw [hh]), hh]
        exact lockAndProcess_no_handshake env s i o

theorem runFrames_gate_off (plat : Platform) (calls : List FrameCall) :
    ∀ s : PercEncFilter,
      (plat.MFX_ENABLE_ENCTOOLS && s.m_saliencyMapSupported) = false →
      ∀ r ∈ runFrames plat s calls, ∀ e ∈ r.trace, e.isHandshake = false := by
  induction calls with
  | nil => intro s _ r hr; simp [runFrames] at hr
  | cons c cs ih =>
    intro s hoff r hr
    simp only [runFrames, List.mem_cons] at hr
    rcases hr with rfl | hr
    · exact RunFrameVPP_gate_off plat c.env s c.inp c.out hoff
    · refine ih _ ?_ r hr
      rw [(RunFrameVPP_invariant plat c.env s c.inp c.out).2.2.2.1]
      exact hoff

theorem initEncTools_gate (plat : Platform) (env : InitEnv) (s : PercEncFilter)
    (hd : env.createEncTools = none ∨ env.encToolsInit ≠ MFX_ERR_NONE) :
    (plat.MFX_ENABLE_ENCTOOLS && (initEncTools plat env s).2.m_saliencyMapSupported) =
      false := by
  unfold initEncTools
  cases hE : plat.MFX_ENABLE_ENCTOOLS
  · simp
  · cases hc : env.createEncTools with
    | none => simp
    | some t =>
      rcases hd with hd | hd
      · rw [hc] at hd
        cases hd
      · cases env.frameAllocator <;> simp [hd]

/-- C7: when `Init` on a session that was not initialised returns success while the
engine could not be created or the engine's own `Init` returned a status other than
success, no frame call of any later sequence of frame calls issues `Submit` or `Query`. -/
theorem C7_saliency_gate_stability (plat : Platform) (env : InitEnv) (s : PercEncFilter)
    (gi go : mfxFrameInfo) (calls : List FrameCall)
    (hu : s.m_initialized = false)
    (hI : (Init plat env s (some gi) (some go)).1 = MFX_ERR_NONE)
    (hd : env.createEncTools = none ∨ env.encToolsInit ≠ MFX_ERR_NONE) :
    ∀ r ∈ runFrames plat (Init plat env s (some gi) (some go)).2 calls,
      ∀ e ∈ r.trace, e.isHandshake = false := by
  apply runFrames_gate_off
  rw [(Init_fresh_success plat env s gi go hu hI).2.2.2.2]
  exact initEncTools_gate plat env _ hd

/-- C7, checked with the engine compiled in and its `Init` failing: a 16x2 frame call
after `Init` issues its two locks and the kernel call, and no `Submit` or `Query`. -/
theorem C7_saliency_gate_stability_witness :
    (RunFrameVPP platEnc envFrameOk
        (Init platEnc envEngineInitFails PercEncFilter.constructed
          (some (info420 16 2)) (some (info420 16 2))).2
        (some (flatSurface 16 2 16 5 7)) (some (flatSurface 16 2 16 0 0))).trace.all
      (fun e => !e.isHandshake) = true := by
  rw [List.all_eq_true]
  intro e he
  rw [C7_saliency_gate_stability platEnc envEngineInitFails PercEncFilter.constructed
    (info420 16 2) (info420 16 2) [flatCall] rfl (by decide) (Or.inr (by decide))
    _ (List.mem_cons_self _ _) e he]
  rfl

/-! ## Init on an initialised session -/

theorem Init_success_initialized (plat : Platform) (env : InitEnv) (s : PercEncFilter)
    (i o : Option mfxFrameInfo) (hI : (Init plat env s i o).1 = MFX_ERR_NONE) :
    plat.cpuHasAvx2 = true ∧ (Init plat env s i o).2.m_initialized = true := by
  have hcpu := Init_success_cpu plat env s _ _ hI
  refine ⟨hcpu, ?_⟩
  cases i with
  | none => simp [Init, hcpu, MFX_ERR_NULL_PTR, MFX_ERR_NONE] at hI
  | some gi =>
    cases o with
    | none => simp [Init, hcpu, MFX_ERR_NULL_PTR, MFX_ERR_NONE] at hI
    | some go =>
      cases hu : s.m_initialized
      · exact (Init_fresh_state plat env s gi go hu hI).2.2.2.2
      · simp [Init, hcpu, hu]

/-- C8: after a successful `Init` with a geometry pair, possibly followed by frame calls,
another `Init` with the same pair (whatever the collaborators would answer) returns
success and leaves the whole object as it is: geometry, `previousOutput`, kernel, gate
and counter. -/
theorem C8_Init_idempotent (plat : Platform) (env env2 : InitEnv) (s : PercEncFilter)
    (gi go : mfxFrameInfo) (calls : List FrameCall)
    (hI : (Init plat env s (some gi) (some go)).1 = MFX_ERR_NONE) :
    Init plat env2 (afterFrames plat (Init plat env s (some gi) (some go)).2 calls)
        (some gi) (some go) =
      (some MFX_ERR_NONE,
        afterFrames plat (Init plat env s (some gi) (some go)).2 calls) := by
  obtain ⟨hcpu, hinit⟩ := Init_success_initialized plat env s _ _ hI
  have hm := (afterFrames_invariant plat calls (Init plat env s (some gi) (some go)).2).1
  rw [hinit] at hm
  generalize afterFrames plat (Init plat env s (some gi) (some go)).2 calls = t at hm
  unfold Init
  simp [hcpu, hm]

/-- C8, checked on `Init` with 16x2, one frame call, and `Init` with 16x2 again: the
second `Init` returns success, and the buffer still holds the retained luma 6. -/
theorem C8_Init_idempotent_witness :
    (Init platEnc envEngineOk (afterFrames platEnc
        (Init platEnc envEngineOk PercEncFilter.constructed
          (some (info420 16 2)) (some (info420 16 2))).2 [flatCall])
        (some (info420 16 2)) (some (info420 16 2))).1 = MFX_ERR_NONE ∧
    (Init platEnc envEngineOk (afterFrames platEnc
        (Init platEnc envEngineOk PercEncFilter.constructed
          (some (info420 16 2)) (some (info420 16 2))).2 [flatCall])
        (some (info420 16 2)) (some (info420 16 2))).2.previousOutput[5]? = some 6 := by
  rw [C8_Init_idempotent platEnc envEngineOk envEngineOk PercEncFilter.constructed
    (info420 16 2) (info420 16 2) [flatCall] (by decide)]
  exact ⟨rfl, by decide⟩

/-! ## Close and Reset -/

/-- C9 (the code after `Close`): on a session initialised with 16x2, `Close` returns
success and the initialised flag is still on; a following `Init` with the valid pair 32x4
returns success at once and sets nothing up: the geometry is still 16x2 and
`previousOutput` still has 32 entries. -/
theorem C9_Close_keeps_initialized :
    (Close platPlain session16x2).1 = MFX_ERR_NONE ∧
    session16x2.m_initialized = true ∧
    (Close platPlain session16x2).2.m_initialized = true ∧
    geometryChecks (info420 32 4) (info420 32 4) = true ∧
    (Init platPlain envNoEngine (Close platPlain session16x2).2
        (some (info420 32 4)) (some (info420 32 4))).1 = MFX_ERR_NONE ∧
    (Init platPlain envNoEngine (Close platPlain session16x2).2
        (some (info420 32 4)) (some (info420 32 4))).2.width = 16 ∧
    (Init platPlain envNoEngine (Close platPlain session16x2).2
        (some (info420 32 4)) (some (info420 32 4))).2.height = 2 ∧
    (Init platPlain envNoEngine (Close platPlain session16x2).2
        (some (info420 32 4)) (some (info420 32 4))).2.previousOutput.length = 32 := by
  decide

/-- C10 (the code on `Close` then `Reset`): on a session initialised with 16x2 that has
processed one frame, `Close` followed by `Reset` with the valid pair 32x4 returns success
and the session is initialised, but the geometry is still 16x2 and `previousOutput` still
has 32 entries holding the retained luma 6, not 128 zeros. -/
theorem C10_Reset_keeps_old_geometry :
    (Reset platPlain envNoEngine
        (Close platPlain (afterFrames platPlain session16x2 [flatCall])).2
        (some { vpp := { In := info420 32 4, Out := info420 32 4 } })).1 = MFX_ERR_NONE ∧
    (Reset platPlain envNoEngine
        (Close platPlain (afterFrames platPlain session16x2 [flatCall])).2
        (some { vpp := { In := info420 32 4, Out := info420 32 4 } })).2.m_initialized
      = true ∧
    (Reset platPlain envNoEngine
        (Close platPlain (afterFrames platPlain session16x2 [flatCall])).2
        (some { vpp := { In := info420 32 4, Out := info420 32 4 } })).2.width = 16 ∧
    (Reset platPlain envNoEngine
        (Close platPlain (afterFrames platPlain session16x2 [flatCall])).2
        (some { vpp := { In := info420 32 4, Out := info420 32 4 } })).2.height = 2 ∧
    (Reset platPlain envNoEngine
        (Close platPlain (afterFrames platPlain session16x2 [flatCall])).2
        (some { vpp := { In := info420 32 4, Out := info420 32 4 } })).2.previousOutput.length
      = 32 ∧
    (Reset platPlain envNoEngine
        (Close platPlain (afterFrames platPlain session16x2 [flatCall])).2
        (some { vpp := { In := info420 32 4, Out := info420 32 4 } })).2.previousOutput[0]?
      = some 6 := by
  decide

theorem Reset_null (plat : Platform) (env : InitEnv) (s : PercEncFilter) :
    Reset plat env s none = (some MFX_ERR_NULL_PTR, s) := rfl

/-- On a session that is not initialised, with the CPU feature present, `Reset` with a
pair that fails the geometry checks returns `MFX_ERR_INVALID_VIDEO_PARAM` and leaves the
object as it was. -/
theorem Reset_rejected_fresh (plat : Platform) (env : InitEnv) (s : PercEncFilter)
    (vp : mfxVideoParam) (hcpu : plat.cpuHasAvx2 = true) (hu : s.m_initialized = false)
    (hg : geometryChecks vp.vpp.In vp.vpp.Out = false) :
    Reset plat env s (some vp) = (some MFX_ERR_INVALID_VIDEO_PARAM, s) := by
  simp [Reset, Close, Init, hcpu, hu, hg, MFX_ERR_NONE, MFX_ERR_INVALID_VIDEO_PARAM]

/-- C11 (the code on an initialised session): `Reset` with absent parameters returns
`MFX_ERR_NULL_PTR`; the pair 8x1 fails the geometry checks (`CropW < 16`, `CropH < 2`) and
`Init` on a constructed session answers it with `MFX_ERR_INVALID_VIDEO_PARAM`; yet `Reset`
with that pair on a session initialised with 16x2 returns success and the session is
still initialised, with its geometry 16x2. -/
theorem C11_Reset_rejected_pair_on_initialized :
    (Reset platPlain envNoEngine session16x2 none).1 = MFX_ERR_NULL_PTR ∧
    geometryChecks (info420 8 1) (info420 8 1) = false ∧
    (Init platPlain envNoEngine PercEncFilter.constructed
        (some (info420 8 1)) (some (info420 8 1))).1 = MFX_ERR_INVALID_VIDEO_PARAM ∧
    session16x2.m_initialized = true ∧
    (Reset platPlain envNoEngine session16x2 (some (paramsOf (info420 8 1)))).1
      = MFX_ERR_NONE ∧
    (Reset platPlain envNoEngine session16x2 (some (paramsOf (info420 8 1)))).2.m_initialized
      = true ∧
    (Reset platPlain envNoEngine session16x2 (some (paramsOf (info420 8 1)))).2.width
      = 16 := by
  decide

/-! ## Init: order of the error checks -/

/-- C14: when the CPU feature is absent, `Init` returns `MFX_ERR_UNSUPPORTED` whatever the
arguments and the session state; when it is present and either geometry is absent, `Init`
returns `MFX_ERR_NULL_PTR`; in both cases the object is unchanged. -/
theorem C14_Init_error_order (plat : Platform) (env : InitEnv) (s : PercEncFilter)
    (inp out : Option mfxFrameInfo) :
    (plat.cpuHasAvx2 = false → Init plat env s inp out = (some MFX_ERR_UNSUPPORTED, s)) ∧
    (plat.cpuHasAvx2 = true → (inp = none ∨ out = none) →
      Init plat env s inp out = (some MFX_ERR_NULL_PTR, s)) := by
  constructor
  · intro h
    simp [Init, h]
  · intro h hn
    rcases hn with hn | hn
    · subst hn
      simp [Init, h]
    · subst hn
      cases inp <;> simp [Init, h]

/-! ## Readiness query -/

/-- C18: `IsReadyOutput` returns true for every request type and every session state, and
the object is unchanged. -/
theorem C18_IsReadyOutput_always_true (s : PercEncFilter) (request : Nat) :
    IsReadyOutput s request = (true, s) := rfl

/-- C14, checked on a platform without the CPU feature (initialised session, both
geometries absent) and on a platform with it (input geometry absent). -/
theorem C14_Init_error_order_witness :
    Init platNoAvx2 envEngineOk session16x2 none none =
      (some MFX_ERR_UNSUPPORTED, session16x2) ∧
    Init platEnc envEngineOk PercEncFilter.constructed none (some (info420 16 2)) =
      (some MFX_ERR_NULL_PTR, PercEncFilter.constructed) :=
  ⟨(C14_Init_error_order platNoAvx2 envEngineOk session16x2 none none).1 rfl,
   (C14_Init_error_order platEnc envEngineOk PercEncFilter.constructed none
      (some (info420 16 2))).2 rfl (Or.inl rfl)⟩

/-! ## The saliency handshake with the gate on -/

theorem saliencyHandshake_submit_failed (plat : Platform) (env : FrameEnv)
    (s : PercEncFilter) (i : mfxFrameSurface1) (hon : saliencyGate plat s = true)
    (hsub : env.submitSts ≠ MFX_ERR_NONE) :
    saliencyHandshake plat env s i =
      (env.submitSts, s, [Event.submit s.m_frameCounter]) := by
  unfold saliencyGate at hon
  unfold saliencyHandshake
  rw [if_pos hon, if_pos hsub]

theorem saliencyHandshake_submitted (plat : Platform) (env : FrameEnv)
    (s : PercEncFilter) (i : mfxFrameSurface1) (hon : saliencyGate plat s = true)
    (hsub : env.submitSts = MFX_ERR_NONE) :
    saliencyHandshake plat env s i =
      (env.querySts,
       { s with m_frameCounter := (s.m_frameCounter + 1) % 2 ^ 32 },
       [Event.submit s.m_frameCounter,
        Event.query s.m_frameCounter (numOfBlocks i) 0]) := by
  unfold saliencyGate at hon
  unfold saliencyHandshake
  rw [if_pos hon, if_neg (not_not.mpr hsub)]

theorem lockAndProcess_locks_ok (env : FrameEnv) (s : PercEncFilter)
    (i o : mfxFrameSurface1) (tr : List Event)
    (h1 : env.inLockSts = MFX_ERR_NONE) (h2 : env.outLockSts = MFX_ERR_NONE) :
    lockAndProcess env s i o tr =
      processLocked s i o (tr ++ [Event.lockRead, Event.lockWrite]) := by
  unfold lockAndProcess
  rw [if_neg (not_not.mpr h1), if_neg (not_not.mpr h2)]

theorem lockAndProcess_counter_trace (env : FrameEnv) (s : PercEncFilter)
    (i o : mfxFrameSurface1) (tr : List Event) :
    (lockAndProcess env s i o tr).self.m_frameCounter = s.m_frameCounter ∧
    ∃ rest, (lockAndProcess env s i o tr).trace = tr ++ rest ∧
      announcedSizes rest = [] ∧ ∀ e ∈ rest, e.isHandshake = false := by
  unfold lockAndProcess
  split
  · refine ⟨rfl, [Event.lockRead], rfl, rfl, ?_⟩
    intro e he
    simp only [List.mem_singleton] at he
    subst he
    rfl
  · split
    · refine ⟨rfl, [Event.lockRead, Event.lockWrite], rfl, rfl, ?_⟩
      intro e he
      simp only [List.mem_cons, List.mem_singleton, List.not_mem_nil, or_false] at he
      rcases he with rfl | rfl <;> rfl
    · unfold processLocked
      cases s.filter with
      | none =>
        refine ⟨rfl, [Event.lockRead, Event.lockWrite], rfl, rfl, ?_⟩
        intro e he
        simp only [List.mem_cons, List.mem_singleton, List.not_mem_nil, or_false] at he
        rcases he with rfl | rfl <;> rfl
      | some f =>
        refine ⟨rfl, [Event.lockRead, Event.lockWrite,
          Event.processFrame (kernelArgsOf s i o)], ?_, rfl, ?_⟩
        · simp
        · intro e he
          simp only [List.mem_cons, List.mem_singleton, List.not_mem_nil, or_false] at he
          rcases he with rfl | rfl | rfl <;> rfl

theorem RunFrameVPP_submit_failed (plat : Platform) (env : FrameEnv) (s : PercEncFilter)
    (i o : mfxFrameSurface1) (hon : saliencyGate plat s = true)
    (hg : passThroughGuard i o = false) (hsub : env.submitSts ≠ MFX_ERR_NONE) :
    RunFrameVPP plat env s (some i) (some o) =
      { sts := env.submitSts, self := s, out := some o,
        trace := [Event.submit s.m_frameCounter] } := by
  have hh := saliencyHandshake_submit_failed plat env s i hon hsub
  rw [RunFrameVPP_handshake_failed plat env s i o hg (by rw [hh]; exact hsub), hh]

/-- C13 (as stated, refuted): with the gate on and a frame that is not skipped, when
`Submit` fails the call returns before the increment: the counter is 0 on entry and 0 on
exit, not 1. -/
theorem C13_submit_failure_keeps_counter :
    saliencyGate platEnc sessionEnc16x2 = true ∧
    passThroughGuard (flatSurface 16 2 16 5 7) (flatSurface 16 2 16 0 0) = false ∧
    sessionEnc16x2.m_frameCounter = 0 ∧
    (RunFrameVPP platEnc envSubmitFails sessionEnc16x2
        (some (flatSurface 16 2 16 5 7)) (some (flatSurface 16 2 16 0 0))).sts = -1 ∧
    (RunFrameVPP platEnc envSubmitFails sessionEnc16x2
        (some (flatSurface 16 2 16 5 7)) (some (flatSurface 16 2 16 0 0))).self.m_frameCounter
      = 0 ∧
    (RunFrameVPP platEnc envSubmitFails sessionEnc16x2
        (some (flatSurface 16 2 16 5 7)) (some (flatSurface 16 2 16 0 0))).self.m_frameCounter
      ≠ sessionEnc16x2.m_frameCounter + 1 := by
  decide

/-- C13 (amended): with the gate on and a frame that is not skipped, `Submit` carries the
counter's value on entry. When `Submit` fails it is the only engine call and the counter
is unchanged. When `Submit` succeeds, `Query` follows with the same value, no other
engine call is issued, and whatever `Query` and the locks return the counter on exit is
its value on entry plus one as a 32-bit unsigned number (plus one exactly, below
`2^32 - 1`). -/
theorem C13_sequence_numbering (plat : Platform) (env : FrameEnv) (s : PercEncFilter)
    (i o : mfxFrameSurface1) (hon : saliencyGate plat s = true)
    (hg : passThroughGuard i o = false) :
    (env.submitSts ≠ MFX_ERR_NONE →
      (RunFrameVPP plat env s (some i) (some o)).trace = [Event.submit s.m_frameCounter] ∧
      (RunFrameVPP plat env s (some i) (some o)).self.m_frameCounter = s.m_frameCounter) ∧
    (env.submitSts = MFX_ERR_NONE →
      (∃ rest, (RunFrameVPP plat env s (some i) (some o)).trace =
          Event.submit s.m_frameCounter ::
            Event.query s.m_frameCounter (numOfBlocks i) 0 :: rest ∧
        ∀ e ∈ rest, e.isHandshake = false) ∧
      (RunFrameVPP plat env s (some i) (some o)).self.m_frameCounter =
        (s.m_frameCounter + 1) % 2 ^ 32 ∧
      (s.m_frameCounter + 1 < 2 ^ 32 →
        (RunFrameVPP plat env s (some i) (some o)).self.m_frameCounter =
          s.m_frameCounter + 1)) := by
  constructor
  · intro hsub
    rw [(RunFrameVPP_submit_failed plat env s i o hon hg hsub)]
    exact ⟨rfl, rfl⟩
  · intro hsub
    have hh := saliencyHandshake_submitted plat env s i hon hsub
    have key : (∃ rest, (RunFrameVPP plat env s (some i) (some o)).trace =
          Event.submit s.m_frameCounter ::
            Event.query s.m_frameCounter (numOfBlocks i) 0 :: rest ∧
        ∀ e ∈ rest, e.isHandshake = false) ∧
      (RunFrameVPP plat env s (some i) (some o)).self.m_frameCounter =
        (s.m_frameCounter + 1) % 2 ^ 32 := by
      by_cases hq : env.querySts = MFX_ERR_NONE
      · rw [RunFrameVPP_locked plat env s i o hg (by rw [hh]; exact hq), hh]
        obtain ⟨hc, rest, htr, _, hrest⟩ := lockAndProcess_counter_trace env
          { s with m_frameCounter := (s.m_frameCounter + 1) % 2 ^ 32 } i o
          [Event.submit s.m_frameCounter, Event.query s.m_frameCounter (numOfBlocks i) 0]
        exact ⟨⟨rest, by rw [htr]; rfl, hrest⟩, hc⟩
      · rw [RunFrameVPP_handshake_failed plat env s i o hg (by rw [hh]; exact hq), hh]
        exact ⟨⟨[], rfl, fun e he => absurd he (List.not_mem_nil e)⟩, rfl⟩
    refine ⟨key.1, key.2, ?_⟩
    intro hlt
    rw [key.2, Nat.mod_eq_of_lt hlt]

/-- C13 (amended), checked on a gate-on 16x2 session whose `Query` answers "not ready":
the counter on exit is the counter on entry plus one. -/
theorem C13_sequence_numbering_witness :
    (RunFrameVPP platEnc envQueryNotReady sessionEnc16x2
        (some (flatSurface 16 2 16 5 7)) (some (flatSurface 16 2 16 0 0))).self.m_frameCounter
      = sessionEnc16x2.m_frameCounter + 1 :=
  ((C13_sequence_numbering platEnc envQueryNotReady sessionEnc16x2
    (flatSurface 16 2 16 5 7) (flatSurface 16 2 16 0 0) (by decide) (by decide)).2 rfl).2.2
    (by decide)

/-! ## Size of the modulation map announced to the engine -/

theorem numOfBlocks_aligned (i : mfxFrameSurface1) (hw : 8 ∣ i.Info.Width)
    (hh : 8 ∣ i.Info.Height) (hlt : i.Info.Width * i.Info.Height < 2 ^ 32) :
    numOfBlocks i = ((i.Info.Width + 7) / 8) * ((i.Info.Height + 7) / 8) := by
  unfold numOfBlocks
  obtain ⟨a, ha⟩ := hw
  obtain ⟨b, hb⟩ := hh
  rw [Nat.mod_eq_of_lt hlt, ha, hb]
  have h1 : 8 * a * (8 * b) = 8 * 8 * (a * b) := by ring
  have h2 : (8 * a + 7) / 8 = a := by omega
  have h3 : (8 * b + 7) / 8 = b := by omega
  rw [h1, Nat.mul_div_cancel_left _ (by decide : 0 < 8 * 8), h2, h3]

/-- C17 (as stated, refuted): on a gate-on 16x2 session, for a surface whose allocated
size and crop size are both 16x2 the announced `AllocatedSize` is `16 * 2 / 64 = 0`, while
`ceil(16/8) * ceil(2/8) = 2`; on a gate-on 1920x1080 session, for a surface allocated as
1920x1088 the announced size is `1920 * 1088 / 64 = 32640`, while
`ceil(1920/8) * ceil(1080/8) = 32400`. -/
theorem C17_announced_size_differs :
    saliencyGate platEnc sessionEnc16x2 = true ∧
    sessionEnc16x2.width = 16 ∧ sessionEnc16x2.height = 2 ∧
    announcedSizes (RunFrameVPP platEnc envFrameOk sessionEnc16x2
        (some (flatSurface 16 2 16 5 7)) (some (flatSurface 16 2 16 0 0))).trace = [0] ∧
    ((16 + 7) / 8) * ((2 + 7) / 8) = 2 ∧
    saliencyGate platEnc sessionEnc1080 = true ∧
    sessionEnc1080.width = 1920 ∧ sessionEnc1080.height = 1080 ∧
    passThroughGuard (alignedSurface1080 5 7) (alignedSurface1080 0 0) = false ∧
    announcedSizes (RunFrameVPP platEnc envQueryNotReady sessionEnc1080
        (some (alignedSurface1080 5 7)) (some (alignedSurface1080 0 0))).trace = [32640] ∧
    ((1920 + 7) / 8) * ((1080 + 7) / 8) = 32400 := by
  decide

/-- C17 (amended): with the gate on and a frame that is not skipped, a call whose `Submit`
succeeds announces exactly one `AllocatedSize`, equal to
`Info.Width * Info.Height / 64` of the input surface (its allocated size, in 32-bit
arithmetic, rounded down); a call whose `Submit` fails announces none. When `Info.Width`
and `Info.Height` are multiples of 8 and their product is below `2^32`, that number is
`ceil(Info.Width / 8) * ceil(Info.Height / 8)`. -/
theorem C17_announced_size (plat : Platform) (env : FrameEnv) (s : PercEncFilter)
    (i o : mfxFrameSurface1) (hon : saliencyGate plat s = true)
    (hg : passThroughGuard i o = false) :
    (env.submitSts = MFX_ERR_NONE →
      announcedSizes (RunFrameVPP plat env s (some i) (some o)).trace =
        [(i.Info.Width * i.Info.Height % 2 ^ 32) / 64]) ∧
    (env.submitSts ≠ MFX_ERR_NONE →
      announcedSizes (RunFrameVPP plat env s (some i) (some o)).trace = []) ∧
    (8 ∣ i.Info.Width → 8 ∣ i.Info.Height → i.Info.Width * i.Info.Height < 2 ^ 32 →
      (i.Info.Width * i.Info.Height % 2 ^ 32) / 64 =
        ((i.Info.Width + 7) / 8) * ((i.Info.Height + 7) / 8)) := by
  refine ⟨?_, ?_, ?_⟩
  · intro hsub
    have hh := saliencyHandshake_submitted plat env s i hon hsub
    by_cases hq : env.querySts = MFX_ERR_NONE
    · rw [RunFrameVPP_locked plat env s i o hg (by rw [hh]; exact hq), hh]
      obtain ⟨_, rest, htr, hrest, _⟩ := lockAndProcess_counter_trace env
        { s with m_frameCounter := (s.m_frameCounter + 1) % 2 ^ 32 } i o
        [Event.submit s.m_frameCounter, Event.query s.m_frameCounter (numOfBlocks i) 0]
      rw [htr]
      show numOfBlocks i :: announcedSizes rest = _
      rw [hrest]
      rfl
    · rw [RunFrameVPP_handshake_failed plat env s i o hg (by rw [hh]; exact hq), hh]
      rfl
  · intro hsub
    rw [RunFrameVPP_submit_failed plat env s i o hon hg hsub]
    rfl
  · intro hw hh hlt
    exact numOfBlocks_aligned i hw hh hlt

/-- C17 (amended), checked on a gate-on session with a surface allocated as 1920x1088:
one size is announced, `1920 * 1088 / 64`. -/
theorem C17_announced_size_witness :
    announcedSizes (RunFrameVPP platEnc envFrameOk sessionEnc1080
        (some (alignedSurface1080 5 7)) (some (alignedSurface1080 0 0))).trace =
      [(1920 * 1088 % 2 ^ 32) / 64] :=
  (C17_announced_size platEnc envFrameOk sessionEnc1080
    (alignedSurface1080 5 7) (alignedSurface1080 0 0) (by decide) (by decide)).1 rfl

/-! ## Init: start of the saliency session -/

/-- C15 (as stated, refuted): with the engine created and no frame allocator available
from the core, `Init` with the valid pair 16x2 on a constructed session returns
`MFX_ERR_NULL_PTR` and the session is not marked initialised. -/
theorem C15_null_allocator_is_fatal :
    geometryChecks (info420 16 2) (info420 16 2) = true ∧
    platEnc.cpuHasAvx2 = true ∧ PercEncFilter.constructed.m_initialized = false ∧
    envNoAllocator.createEncTools.isSome = true ∧ envNoAllocator.frameAllocator = false ∧
    (Init platEnc envNoAllocator PercEncFilter.constructed
        (some (info420 16 2)) (some (info420 16 2))).1 = MFX_ERR_NULL_PTR ∧
    (Init platEnc envNoAllocator PercEncFilter.constructed
        (some (info420 16 2)) (some (info420 16 2))).1 ≠ MFX_ERR_NONE ∧
    (Init platEnc envNoAllocator PercEncFilter.constructed
        (some (info420 16 2)) (some (info420 16 2))).2.m_initialized = false := by
  decide

/-- C15 (amended): for a pair that passes the geometry checks and whose input crop area
`CropW * CropH` fits `int` (below `2^31`), on a session that is not initialised and with
the CPU feature present: unless the engine is compiled in and created while the core gives
no frame allocator, `Init` returns success and marks the session initialised (in
particular when the engine cannot be created and when the engine's `Init` fails); in that
excepted case `Init` returns `MFX_ERR_NULL_PTR` and the session stays not initialised.
After `Init` the handshake gate is on exactly when the engine is compiled in, was created,
the frame allocator was obtained and the engine's `Init` returned success. -/
theorem C15_saliency_start (plat : Platform) (env : InitEnv) (s : PercEncFilter)
    (i o : mfxFrameInfo) (hcpu : plat.cpuHasAvx2 = true) (hu : s.m_initialized = false)
    (hg : geometryChecks i o = true) (hprod : i.CropW * i.CropH < 2 ^ 31) :
    (¬ (plat.MFX_ENABLE_ENCTOOLS = true ∧ env.createEncTools.isSome = true ∧
        env.frameAllocator = false) →
      (Init plat env s (some i) (some o)).1 = MFX_ERR_NONE ∧
      (Init plat env s (some i) (some o)).2.m_initialized = true) ∧
    ((plat.MFX_ENABLE_ENCTOOLS = true ∧ env.createEncTools.isSome = true ∧
        env.frameAllocator = false) →
      (Init plat env s (some i) (some o)).1 = MFX_ERR_NULL_PTR ∧
      (Init plat env s (some i) (some o)).2.m_initialized = false) ∧
    (saliencyGate plat (Init plat env s (some i) (some o)).2 = true ↔
      (plat.MFX_ENABLE_ENCTOOLS = true ∧ env.createEncTools.isSome = true ∧
        env.frameAllocator = true ∧ env.encToolsInit = MFX_ERR_NONE)) := by
  rw [Init_fresh_valid plat env s i o hcpu hu hg hprod]
  unfold initEncTools saliencyGate
  have hu2 : (allocateBuffers plat (assignGeometry s i)).m_initialized = false := hu
  cases hE : plat.MFX_ENABLE_ENCTOOLS <;> cases hc : env.createEncTools <;>
    cases ha : env.frameAllocator <;>
    simp [hu2, MFX_ERR_NONE, MFX_ERR_NULL_PTR]

/-- C15 (amended), checked on a constructed session with the engine compiled in and its
`Init` failing: `Init` returns success and the session is initialised. -/
theorem C15_saliency_start_witness :
    (Init platEnc envEngineInitFails PercEncFilter.constructed
        (some (info420 16 2)) (some (info420 16 2))).1 = MFX_ERR_NONE ∧
    (Init platEnc envEngineInitFails PercEncFilter.constructed
        (some (info420 16 2)) (some (info420 16 2))).2.m_initialized = true :=
  (C15_saliency_start platEnc envEngineInitFails PercEncFilter.constructed
    (info420 16 2) (info420 16 2) rfl rfl (by decide) (by decide)).1 (by decide)

/-! ## Frames on a session without engine -/

theorem RunFrameVPP_filter_some (plat : Platform) (env : FrameEnv) (s : PercEncFilter)
    (inp out : Option mfxFrameSurface1) (hf : ∃ f, s.filter = some f) :
    ∃ f, (RunFrameVPP plat env s inp out).self.filter = some f := by
  obtain ⟨f, hf⟩ := hf
  cases inp with
  | none => exact ⟨f, hf⟩
  | some i =>
    cases out with
    | none => exact ⟨f, hf⟩
    | some o =>
      obtain ⟨c, hc⟩ := saliencyHandshake_state plat env s i
      cases hg : passThroughGuard i o with
      | true =>
        rw [RunFrameVPP_skip plat env s i o hg]
        exact ⟨f, hf⟩
      | false =>
        by_cases hh : (saliencyHandshake plat env s i).1 = MFX_ERR_NONE
        · rw [RunFrameVPP_locked plat env s i o hg hh, hc]
          unfold lockAndProcess
          split
          · exact ⟨f, hf⟩
          · split
            · exact ⟨f, hf⟩
            · rw [processLocked_filter { s with m_frameCounter := c } i o _ f hf]
              exact ⟨_, rfl⟩
        · rw [RunFrameVPP_handshake_failed plat env s i o hg hh, hc]
          exact ⟨f, hf⟩

/-- Frame calls keep the geometry, the length of `previousOutput`, the gate, and the
presence of a kernel. -/
theorem afterFrames_session (plat : Platform) (calls : List FrameCall) :
    ∀ s : PercEncFilter,
      (afterFrames plat s calls).width = s.width ∧
      (afterFrames plat s calls).height = s.height ∧
      (afterFrames plat s calls).previousOutput.length = s.previousOutput.length ∧
      saliencyGate plat (afterFrames plat s calls) = saliencyGate plat s ∧
      ((∃ f, s.filter = some f) → ∃ f, (afterFrames plat s calls).filter = some f) := by
  induction calls with
  | nil => intro s; exact ⟨rfl, rfl, rfl, rfl, fun h => h⟩
  | cons c cs ih =>
    intro s
    have h := RunFrameVPP_invariant plat c.env s c.inp c.out
    have h2 := ih (RunFrameVPP plat c.env s c.inp c.out).self
    refine ⟨h2.1.trans h.2.1, h2.2.1.trans h.2.2.1, h2.2.2.1.trans h.2.2.2.2.2, ?_, ?_⟩
    · rw [show afterFrames plat s (c :: cs) =
        afterFrames plat (RunFrameVPP plat c.env s c.inp c.out).self cs from rfl, h2.2.2.2.1]
      unfold saliencyGate
      rw [h.2.2.2.1]
    · intro hf
      exact h2.2.2.2.2 (RunFrameVPP_filter_some plat c.env s c.inp c.out hf)

theorem RunFrameVPP_gate_off_locks_ok (plat : Platform) (env : FrameEnv) (s : PercEncFilter)
    (i o : mfxFrameSurface1) (hoff : saliencyGate plat s = false)
    (hg : passThroughGuard i o = false)
    (h1 : env.inLockSts = MFX_ERR_NONE) (h2 : env.outLockSts = MFX_ERR_NONE) :
    RunFrameVPP plat env s (some i) (some o) =
      processLocked s i o [Event.lockRead, Event.lockWrite] := by
  have hh : saliencyHandshake plat env s i = (MFX_ERR_NONE, s, []) := by
    unfold saliencyGate at hoff
    unfold saliencyHandshake
    rw [hoff]
    rfl
  rw [RunFrameVPP_locked plat env s i o hg (by rw [hh]), hh,
    lockAndProcess_locks_ok env s i o _ h1 h2]
  rfl

/-- C16 (as stated, refuted): after a successful `Init` with 1920x1080, 4:2:0, 8-bit and
no engine, a frame call on matching surfaces of pitch 1920 returns success, and the output
luma at offset 0 is 6, the value the kernel produced, while the input luma there is 5. -/
theorem C16_kernel_output_not_input :
    (Init platEnc envNoEngine PercEncFilter.constructed
        (some (info420 1920 1080)) (some (info420 1920 1080))).1 = MFX_ERR_NONE ∧
    passThroughGuard (flatSurface 1920 1080 1920 5 7) (flatSurface 1920 1080 1920 0 0)
      = false ∧
    (RunFrameVPP platEnc envFrameOk session1080
        (some (flatSurface 1920 1080 1920 5 7))
        (some (flatSurface 1920 1080 1920 0 0))).sts = MFX_ERR_NONE ∧
    (flatSurface 1920 1080 1920 5 7).Data.Y 0 = 5 ∧
    (RunFrameVPP platEnc envFrameOk session1080
        (some (flatSurface 1920 1080 1920 5 7))
        (some (flatSurface 1920 1080 1920 0 0))).out.map (fun r => r.Data.Y 0) = some 6 := by
  decide

/-- C16 (amended): after a successful `Init` with crop size 1920x1080 on a session that
was not initialised, the engine not being created, and after any frame calls, every frame
call that is not skipped and whose two locks succeed returns success without `Submit` or
`Query`; the output luma is the plane that the kernel, which the session always holds, produces
for width 1920 and height 1080, and the output chroma equals the input chroma on the
first `Pitch * 540` bytes. -/
theorem C16_no_engine_scenario (plat : Platform) (env : InitEnv) (s : PercEncFilter)
    (gi go : mfxFrameInfo) (calls : List FrameCall) (fenv : FrameEnv)
    (i o : mfxFrameSurface1)
    (hu : s.m_initialized = false)
    (hI : (Init plat env s (some gi) (some go)).1 = MFX_ERR_NONE)
    (hw : gi.CropW = 1920) (hh : gi.CropH = 1080)
    (hne : env.createEncTools = none)
    (hg : passThroughGuard i o = false)
    (h1 : fenv.inLockSts = MFX_ERR_NONE) (h2 : fenv.outLockSts = MFX_ERR_NONE) :
    (RunFrameVPP plat fenv (afterFrames plat (Init plat env s (some gi) (some go)).2 calls)
        (some i) (some o)).sts = MFX_ERR_NONE ∧
    (∀ e ∈ (RunFrameVPP plat fenv
        (afterFrames plat (Init plat env s (some gi) (some go)).2 calls)
        (some i) (some o)).trace, e.isHandshake = false) ∧
    ∃ f r,
      (afterFrames plat (Init plat env s (some gi) (some go)).2 calls).filter = some f ∧
      (RunFrameVPP plat fenv (afterFrames plat (Init plat env s (some gi) (some go)).2 calls)
        (some i) (some o)).out = some r ∧
      r.Data.Y = (f.processFrame (kernelArgsOf
        (afterFrames plat (Init plat env s (some gi) (some go)).2 calls) i o)).2 ∧
      (kernelArgsOf
        (afterFrames plat (Init plat env s (some gi) (some go)).2 calls) i o).width = 1920 ∧
      (kernelArgsOf
        (afterFrames plat (Init plat env s (some gi) (some go)).2 calls) i o).height = 1080 ∧
      ∀ j, j < i.Data.Pitch * 540 → r.Data.UV j = i.Data.UV j := by
  obtain ⟨hwt, hht, _, hf, _⟩ := Init_fresh_state plat env s gi go hu hI
  have hgate : saliencyGate plat (Init plat env s (some gi) (some go)).2 = false := by
    rw [(Init_fresh_success plat env s gi go hu hI).2.2.2.2]
    exact initEncTools_gate plat env _ (Or.inl hne)
  obtain ⟨hwt2, hht2, _, hgate2, hf2⟩ :=
    afterFrames_session plat calls (Init plat env s (some gi) (some go)).2
  obtain ⟨f, hf3⟩ := hf2 ⟨_, hf⟩
  rw [hgate] at hgate2
  rw [hht, hh] at hht2
  rw [hwt, hw] at hwt2
  generalize afterFrames plat (Init plat env s (some gi) (some go)).2 calls = t at *
  rw [RunFrameVPP_gate_off_locks_ok plat fenv t i o hgate2 hg h1 h2,
    processLocked_filter t i o _ f hf3]
  refine ⟨rfl, ?_, f, _, hf3, rfl, rfl, hwt2, hht2, ?_⟩
  · intro e he
    simp only [List.cons_append, List.nil_append, List.mem_cons, List.mem_singleton,
      List.not_mem_nil, or_false] at he
    rcases he with rfl | rfl | rfl <;> rfl
  · intro j hj
    show copyChroma t i o j = _
    rw [copyChroma_apply, hht2, if_pos (by omega)]

/-- C16 (amended), checked on the 1920x1080 session without engine and flat surfaces of
pitch 1920: the call returns success. -/
theorem C16_no_engine_scenario_witness :
    (RunFrameVPP platEnc envFrameOk session1080
        (some (flatSurface 1920 1080 1920 5 7))
        (some (flatSurface 1920 1080 1920 0 0))).sts = MFX_ERR_NONE :=
  (C16_no_engine_scenario platEnc envNoEngine PercEncFilter.constructed
    (info420 1920 1080) (info420 1920 1080) [] envFrameOk
    (flatSurface 1920 1080 1920 5 7) (flatSurface 1920 1080 1920 0 0)
    rfl (by decide) rfl rfl rfl (by decide) rfl rfl).1

/-! ## Offsets touched by the copy loops -/

theorem copyToPlane_eq_offsets (src : Plane) (first last : Nat) (dst : Plane) (d : Nat) :
    copyToPlane src first last dst d =
      (copyOffsets first last d).foldl (fun acc p => acc.write p.2 (src p.1)) dst := by
  unfold copyToPlane copyOffsets
  rw [List.foldl_map]

theorem copyToVector_eq_offsets (src : Plane) (first last : Nat) (dst : List Nat) (d : Nat) :
    copyToVector src first last dst d =
      (copyOffsets first last d).foldl (fun acc p => acc.set p.2 (src p.1)) dst := by
  unfold copyToVector copyOffsets
  rw [List.foldl_map]

/-- The luma copy loop stores exactly at the offsets of `copyLumaOffsets`. -/
theorem copyLuma_eq_offsets (s : PercEncFilter) (i o : mfxFrameSurface1) :
    copyLuma s i o =
      (copyLumaOffsets s o).foldl (fun acc p => acc.write p.2 (i.Data.Y p.1)) o.Data.Y := by
  unfold copyLuma copyLumaOffsets
  generalize s.height = n
  induction n with
  | zero => rfl
  | succ n ih =>
    rw [List.range_succ, List.foldl_append, List.flatMap_append, List.foldl_append, ← ih]
    simp only [List.foldl_cons, List.foldl_nil, List.flatMap_cons, List.flatMap_nil,
      List.append_nil]
    rw [copyToPlane_eq_offsets]

/-- The temporal update stores exactly at the offsets of `retainOffsets`. -/
theorem retainOutput_eq_offsets (s : PercEncFilter) (pitch : Nat) (Y : Plane) :
    retainOutput s pitch Y =
      (retainOffsets s pitch).foldl (fun acc p => acc.set p.2 (Y p.1)) s.previousOutput := by
  unfold retainOutput retainOffsets
  generalize s.height = n
  induction n with
  | zero => rfl
  | succ n ih =>
    rw [List.range_succ, List.foldl_append, List.flatMap_append, List.foldl_append, ← ih]
    simp only [List.foldl_cons, List.foldl_nil, List.flatMap_cons, List.flatMap_nil,
      List.append_nil]
    rw [copyToVector_eq_offsets]

/-- The chroma copy stores exactly at the offsets of `copyChromaOffsets`. -/
theorem copyChroma_eq_offsets (s : PercEncFilter) (i o : mfxFrameSurface1) :
    copyChroma s i o =
      (copyChromaOffsets s i).foldl (fun acc p => acc.write p.2 (i.Data.UV p.1))
        o.Data.UV := by
  unfold copyChroma copyChromaOffsets
  rw [copyToPlane_eq_offsets]

/-- The guard does not compare the pitch with the session's width: on a session of width
16 a frame pair of pitch 8 is not skipped, and the temporal update then reads luma offset
`8 * 1 + 15 = 23`, beyond `Pitch * height = 16`. -/
theorem guard_ignores_session_geometry :
    session16x2.width = 16 ∧
    passThroughGuard (flatSurface 16 2 8 5 7) (flatSurface 16 2 8 0 0) = false ∧
    (23, 31) ∈ retainOffsets session16x2 8 ∧ ¬ (23 < 8 * 2) := by
  decide

end PercEncPrefilter
